import Mathlib

/-! CCS811 / BME280 driver: a shallow embedding of `CCS811_BME280.c`.

The driver talks to two sensors over one I2C bus through three functions of the
STM32 HAL (`HAL_I2C_Mem_Read`, `HAL_I2C_Mem_Write`, `HAL_I2C_Master_Transmit`).
The HAL is not part of the driver, so the bus is a parameter of the model: a
device is an arbitrary function from the history of transactions and the
current transaction to a reply.  Every transaction the driver issues is
appended to a log, so that "which transactions, in which order" is a statement
about a list.

Conventions of the embedding:

* `uint8_t`, `uint16_t`, `uint32_t` values are `Nat`, reduced with `% 2 ^ w`
  where the C code truncates; `int8_t`, `int16_t`, `int32_t`, `int64_t` values
  are `Int`, and `int32_t` arithmetic is wrapped to two's complement
  (`wrap32`), which is what the Cortex-M4 instructions compute;
* `>>` on a signed value is the arithmetic (floor) shift;
* `float` values are exact rationals; a conversion from `float` to `uint32_t`
  whose truncated value does not fit is undefined in C and yields `none`;
* after a read the caller's buffer holds the bytes of the reply, also when the
  HAL reports a failure (the reply then records whatever the buffer is left
  with);
* `HAL_Delay` has no effect on the bus or on the driver state and is left out;
* the module-level `static` variables of the C file are fields of `Driver`.
-/

namespace CCS811_BME280

/-! ## Register addresses (`CCS811_BME280.h`) -/

def CCS811_ADDR : Nat := 0xB6
def STATUS_REG : Nat := 0x00
def MEAS_MODE : Nat := 0x01
def ALG_RES_DATA : Nat := 0x02
def HW_ID : Nat := 0x20
def APP_START : Nat := 0xF4
def ERROR_ID : Nat := 0xE0
def SW_RESET : Nat := 0xFF
def ENV_DATA : Nat := 0x05

def BME280_ADDR : Nat := 0xEE
def ID_REG : Nat := 0xD0
def CTRL_MEAS : Nat := 0xF4
def dig_T1_reg : Nat := 0x88
def dig_T2_reg : Nat := 0x8A
def dig_T3_reg : Nat := 0x8C
def dig_H1_reg : Nat := 0xA1
def dig_H2_reg : Nat := 0xE1
def dig_H3_reg : Nat := 0xE3
def dig_H4_reg : Nat := 0xE4
def dig_H5_reg : Nat := 0xE5
def dig_H6_reg : Nat := 0xE7
def CONFIG_REG : Nat := 0xF5
def std_cnf : Nat := 0x00
def std_hum : Nat := 0x01
def std_temp : Nat := 0x20
def CTRL_HUM : Nat := 0xF2

/-- Environmental sensor return codes, in the order of the C enumeration. -/
inductive ENV_SENSOR_STATUS
  | CCS811_SUCCESS
  | CCS811_ERROR
  | CCS811_NOT_READY
  | CCS811_NEW_DATA
  | CCS811_NO_NEW_DATA
  | CCS811_I2C_ERROR
  | BME280_SUCCESS
  | BME280_ERROR
  | BME280_ID_ERR
  | BME280_I2C_ERROR
  deriving DecidableEq, Repr

open ENV_SENSOR_STATUS

/-! ## The bus -/

/-- One I2C transaction as issued through the HAL. -/
inductive Txn
  | memRead (dev reg size : Nat)
  | memWrite (dev reg : Nat) (data : List Nat)
  | masterTransmit (dev : Nat) (data : List Nat)
  deriving DecidableEq, Repr

/-- What the HAL reports for one transaction: `ok` stands for `HAL_OK`, `data`
for the bytes left in the caller's buffer (meaningful for reads only). -/
structure Reply where
  ok : Bool
  data : List Nat
  deriving DecidableEq, Repr

/-- The driver state: the bus (device behaviour and transaction log) and the
`static` variables of `CCS811_BME280.c`. -/
structure Driver where
  device : List Txn → Txn → Reply
  log : List Txn
  CO2 : Nat
  tVOC : Nat
  dig_T1_val : Nat
  dig_T2_val : Int
  dig_T3_val : Int
  dig_H1_val : Nat
  dig_H2_val : Int
  dig_H3_val : Nat
  dig_H4_val : Int
  dig_H5_val : Int
  dig_H6_val : Int
  t_fine : Int

/-- The `i`-th byte of a receive buffer (a byte the reply does not provide
reads as zero). -/
def byteAt (buf : List Nat) (i : Nat) : Nat := buf.getD i 0 % 256

/-- Blocking register read: logs the transaction and returns the HAL status
together with the receive buffer, whose bytes the callers access with
`byteAt`. -/
def HAL_I2C_Mem_Read (s : Driver) (dev reg size : Nat) : Bool × List Nat × Driver :=
  let t := Txn.memRead dev reg size
  let r := s.device s.log t
  (r.ok, r.data, { s with log := s.log ++ [t] })

/-- Blocking register write. -/
def HAL_I2C_Mem_Write (s : Driver) (dev reg : Nat) (data : List Nat) : Bool × Driver :=
  let t := Txn.memWrite dev reg data
  let r := s.device s.log t
  (r.ok, { s with log := s.log ++ [t] })

/-- Blocking raw transmit (no register address). -/
def HAL_I2C_Master_Transmit (s : Driver) (dev : Nat) (data : List Nat) : Bool × Driver :=
  let t := Txn.masterTransmit dev data
  let r := s.device s.log t
  (r.ok, { s with log := s.log ++ [t] })

/-! ## Machine arithmetic -/

/-- Bitwise complement `~n` of an `int`, as its 32-bit pattern. -/
def not32 (n : Nat) : Nat := 0xFFFFFFFF ^^^ (n % 4294967296)

/-- Conversion of an integer to `int32_t` (two's complement wrap-around). -/
def wrap32 (z : Int) : Int := (z + 2147483648) % 4294967296 - 2147483648

/-- Conversion of an integer to `int16_t` (two's complement wrap-around). -/
def wrap16 (z : Int) : Int := (z + 32768) % 65536 - 32768

/-- Conversion of an integer to `int8_t` (two's complement wrap-around). -/
def wrap8 (z : Int) : Int := (z + 128) % 256 - 128

/-- Conversion of a `float` to `uint32_t`: the fractional part is discarded
(truncation toward zero); the result is undefined when the truncated value is
not representable. -/
def floatToU32 (q : ℚ) : Option Nat :=
  let z : Int := if 0 ≤ q then ⌊q⌋ else ⌈q⌉
  if 0 ≤ z ∧ z < 4294967296 then some z.toNat else none

/-! ## CCS811 functions -/

/-- Read a register using I2C. -/
def CCS811_read_register (s : Driver) (reg_addr size : Nat) :
    ENV_SENSOR_STATUS × List Nat × Driver :=
  let (ok, buffer, s1) := HAL_I2C_Mem_Read s CCS811_ADDR reg_addr size
  if !ok then (CCS811_I2C_ERROR, buffer, s1) else (CCS811_SUCCESS, buffer, s1)

/-- Write to a register using I2C. -/
def CCS811_write_register (s : Driver) (reg_addr : Nat) (buffer : List Nat) :
    ENV_SENSOR_STATUS × Driver :=
  let (ok, s1) := HAL_I2C_Mem_Write s CCS811_ADDR reg_addr buffer
  if !ok then (CCS811_I2C_ERROR, s1) else (CCS811_SUCCESS, s1)

/-- Read bit 0 of the status register (the error bit). -/
def CCS811_read_status_error (s : Driver) : Nat × Driver :=
  let (_, buffer, s1) := CCS811_read_register s STATUS_REG 1
  (byteAt buffer 0 &&& 0x01, s1)

/-- Read the error id register. -/
def CCS811_read_error_id (s : Driver) : Nat × Driver :=
  let (_, buffer, s1) := CCS811_read_register s ERROR_ID 1
  (byteAt buffer 0, s1)

/-- Read bit 4 of the status register (application valid). -/
def CCS811_read_app_valid (s : Driver) : Nat × Driver :=
  let (_, buffer, s1) := CCS811_read_register s STATUS_REG 1
  ((byteAt buffer 0 >>> 4) &&& 0x01, s1)

/-- Start the application: one raw byte, no register address. -/
def CCS811_app_start (s : Driver) : ENV_SENSOR_STATUS × Driver :=
  let (ok, s1) := HAL_I2C_Master_Transmit s CCS811_ADDR [APP_START]
  if !ok then (CCS811_I2C_ERROR, s1) else (CCS811_SUCCESS, s1)

/-- Set the drive mode: read-modify-write of `MEAS_MODE`.  `mode` is a
`uint8_t`, so the test `mode < 0` of the C code can never hold. -/
def CCS811_write_mode (s : Driver) (mode : Nat) : ENV_SENSOR_STATUS × Driver :=
  if mode > 4 then (CCS811_ERROR, s) else
  let (status, buffer, s1) := CCS811_read_register s MEAS_MODE 1
  if status ≠ CCS811_SUCCESS then (CCS811_I2C_ERROR, s1) else
  let register_value := byteAt buffer 0
  let register_value := (register_value &&& not32 0x70) % 256
  let register_value := (register_value ||| (mode <<< 4)) % 256
  CCS811_write_register s1 MEAS_MODE [register_value]

/-- Reset the sensor: the 4-byte key written to `SW_RESET`. -/
def CCS811_reset (s : Driver) : ENV_SENSOR_STATUS × Driver :=
  let (status, s1) := CCS811_write_register s SW_RESET [0x11, 0xE5, 0x72, 0x8A]
  if status ≠ CCS811_SUCCESS then (CCS811_I2C_ERROR, s1) else (CCS811_SUCCESS, s1)

/-- Poll the data-ready bit (bit 3) of the status register. -/
def CCS811_data_available (s : Driver) : ENV_SENSOR_STATUS × Driver :=
  let (status, buffer, s1) := CCS811_read_register s STATUS_REG 1
  if status ≠ CCS811_SUCCESS then (CCS811_I2C_ERROR, s1) else
  let register_value := (byteAt buffer 0 &&& 0x08) >>> 3
  if register_value = 0 then (CCS811_NO_NEW_DATA, s1) else (CCS811_NEW_DATA, s1)

/-- Set the environmental values used for compensation.  The result is `none`
when one of the two `float`-to-`uint32_t` conversions is undefined. -/
def CCS811_set_temp_hum (s : Driver) (temp hum : ℚ) : Option (ENV_SENSOR_STATUS × Driver) :=
  if temp < -25 ∨ temp > 50 ∨ hum < 0 ∨ hum > 100 then some (CCS811_ERROR, s) else
  match floatToU32 (hum * 1024), floatToU32 (temp * 1000) with
  | some hum_t, some temp_t =>
    let data0 := ((hum_t + 250) % 4294967296 / 500) % 256
    let data2 := ((temp_t + 25250) % 4294967296 / 500) % 256
    let (status, s1) := CCS811_write_register s ENV_DATA [data0, 0x00, data2, 0x00]
    if status ≠ CCS811_SUCCESS then some (CCS811_I2C_ERROR, s1) else some (status, s1)
  | _, _ => none

/-- Read the CO2 and tVOC values: 4 bytes, two big-endian 16-bit fields. -/
def CCS811_read_alg_res (s : Driver) : ENV_SENSOR_STATUS × Driver :=
  let (status, data, s1) := CCS811_read_register s ALG_RES_DATA 4
  if status ≠ CCS811_SUCCESS then (CCS811_I2C_ERROR, s1) else
  let co2 := (((byteAt data 0) <<< 8) % 65536) ||| byteAt data 1
  let tvoc := (((byteAt data 2) <<< 8) % 65536) ||| byteAt data 3
  (status, { s1 with CO2 := co2, tVOC := tvoc })

def CCS811_get_co2 (s : Driver) : Nat := s.CO2

def CCS811_get_tvoc (s : Driver) : Nat := s.tVOC

/-- Bring-up of the gas sensor.  The `RETRY` loop of the C code has no bound;
`fuel` bounds the number of identity probes, and `none` means that the probes
of the first `fuel` rounds all failed. -/
def CCS811_init (fuel : Nat) (s : Driver) : Option (ENV_SENSOR_STATUS × Driver) :=
  match fuel with
  | 0 => none
  | fuel + 1 =>
    let (temp, buffer, s1) := HAL_I2C_Mem_Read s CCS811_ADDR 0x20 1
    let register_value := byteAt buffer 0
    if !temp ∨ register_value ≠ 0x81 then CCS811_init fuel s1 else
    let (status, s2) := CCS811_reset s1
    if status ≠ CCS811_SUCCESS then some (status, s2) else
    let (err, s3) := CCS811_read_status_error s2
    if err ≠ 0 then some (CCS811_ERROR, s3) else
    let (valid, s4) := CCS811_read_app_valid s3
    if valid ≠ 1 then some (CCS811_ERROR, s4) else
    let (status, s5) := CCS811_app_start s4
    if status ≠ CCS811_SUCCESS then some (status, s5) else
    let (status, s6) := CCS811_write_mode s5 1
    if status ≠ CCS811_SUCCESS then some (status, s6) else
    let (err, s7) := CCS811_read_status_error s6
    if err ≠ 0 then some (CCS811_ERROR, s7) else
    some (status, s7)

/-! ## `int32_t` arithmetic -/

/-- Right shift `a >> k` of a signed value: the arithmetic shift, which rounds
toward minus infinity. -/
def asr (a : Int) (k : Nat) : Int := a >>> k

def add32 (a b : Int) : Int := wrap32 (a + b)
def sub32 (a b : Int) : Int := wrap32 (a - b)
def mul32 (a b : Int) : Int := wrap32 (a * b)
def shl32 (a : Int) (k : Nat) : Int := wrap32 (a * 2 ^ k)

/-! ## BME280 functions -/

def BME280_read_register8 (s : Driver) (reg_addr size : Nat) :
    ENV_SENSOR_STATUS × List Nat × Driver :=
  let (ok, buffer, s1) := HAL_I2C_Mem_Read s BME280_ADDR reg_addr size
  if !ok then (BME280_I2C_ERROR, buffer, s1) else (BME280_SUCCESS, buffer, s1)

/-- Read two bytes and assemble them little-endian; on failure the caller's
variable is not written, which the caller models by ignoring the value. -/
def BME280_read_register16 (s : Driver) (reg_addr : Nat) :
    ENV_SENSOR_STATUS × Nat × Driver :=
  let (ok, buf, s1) := HAL_I2C_Mem_Read s BME280_ADDR reg_addr 2
  if !ok then (BME280_I2C_ERROR, 0, s1) else
  (BME280_SUCCESS, ((byteAt buf 1 <<< 8) ||| byteAt buf 0) % 65536, s1)

def BME280_write_register (s : Driver) (reg_addr : Nat) (buffer : List Nat) :
    ENV_SENSOR_STATUS × Driver :=
  let (ok, s1) := HAL_I2C_Mem_Write s BME280_ADDR reg_addr buffer
  if !ok then (BME280_I2C_ERROR, s1) else (BME280_SUCCESS, s1)

/-- Read the nine calibration registers; each coefficient is stored as soon as
its read returns, `H4` and `H5` are decoded after the last read. -/
def BME280_read_calibration (s : Driver) : ENV_SENSOR_STATUS × Driver :=
  let (status, v, s) := BME280_read_register16 s dig_T1_reg
  if status ≠ BME280_SUCCESS then (status, s) else
  let s := { s with dig_T1_val := v }
  let (status, v, s) := BME280_read_register16 s dig_T2_reg
  if status ≠ BME280_SUCCESS then (status, s) else
  let s := { s with dig_T2_val := wrap16 (v : Int) }
  let (status, v, s) := BME280_read_register16 s dig_T3_reg
  if status ≠ BME280_SUCCESS then (status, s) else
  let s := { s with dig_T3_val := wrap16 (v : Int) }
  let (status, b, s) := BME280_read_register8 s dig_H1_reg 1
  let s := { s with dig_H1_val := byteAt b 0 }
  if status ≠ BME280_SUCCESS then (status, s) else
  let (status, v, s) := BME280_read_register16 s dig_H2_reg
  if status ≠ BME280_SUCCESS then (status, s) else
  let s := { s with dig_H2_val := wrap16 (v : Int) }
  let (status, b, s) := BME280_read_register8 s dig_H3_reg 1
  let s := { s with dig_H3_val := byteAt b 0 }
  if status ≠ BME280_SUCCESS then (status, s) else
  let (status, dig_H4_temp, s) := BME280_read_register16 s dig_H4_reg
  if status ≠ BME280_SUCCESS then (status, s) else
  let (status, dig_H5_temp, s) := BME280_read_register16 s dig_H5_reg
  if status ≠ BME280_SUCCESS then (status, s) else
  let (status, b, s) := BME280_read_register8 s dig_H6_reg 1
  let s := { s with dig_H6_val := wrap8 (byteAt b 0 : Int) }
  if status ≠ BME280_SUCCESS then (status, s) else
  let dig_H4_val : Int := wrap16 (((dig_H4_temp &&& 0x00FF) <<< 4 : Nat) : Int)
  let dig_H4_val : Int :=
    wrap16 (Int.lor dig_H4_val (((dig_H4_temp &&& 0x0F00) >>> 8 : Nat) : Int))
  let dig_H5_val : Int := wrap16 ((dig_H5_temp >>> 4 : Nat) : Int)
  (status, { s with dig_H4_val := dig_H4_val, dig_H5_val := dig_H5_val })

/-- Set the mode: read-modify-write of the low two bits of `CTRL_MEAS`.
`mode` is a `uint8_t`, so the test `mode < 0` of the C code can never hold. -/
def BME280_set_mode (s : Driver) (mode : Nat) : ENV_SENSOR_STATUS × Driver :=
  if mode > 3 then (BME280_ERROR, s) else
  let (status, buffer, s1) := BME280_read_register8 s CTRL_MEAS 1
  if status ≠ BME280_SUCCESS then (status, s1) else
  let register_value := byteAt buffer 0
  let register_value := register_value &&& 0xFC
  let register_value := (register_value ||| mode) % 256
  BME280_write_register s1 CTRL_MEAS [register_value]

/-- Re-read `CTRL_MEAS` and return its low two bits; the status of the read is
not looked at. -/
def BME280_get_mode (s : Driver) : Nat × Driver :=
  let (_, buffer, s1) := BME280_read_register8 s CTRL_MEAS 1
  (byteAt buffer 0 &&& 0x03, s1)

/-- Set the standard config for filter and rate. -/
def BME280_config (s : Driver) : ENV_SENSOR_STATUS × Driver :=
  let (status, buffer, s1) := BME280_read_register8 s CONFIG_REG 1
  if status ≠ BME280_SUCCESS then (status, s1) else
  let register_value := byteAt buffer 0
  let register_value := register_value &&& 0b00000010
  let register_value := (register_value ||| std_cnf) % 256
  BME280_write_register s1 CONFIG_REG [register_value]

/-- Set the humidity oversampling to 1x.  The statuses of the first read and
of the write are overwritten; the status returned is that of the last read. -/
def BME280_set_hum_os (s : Driver) : ENV_SENSOR_STATUS × Driver :=
  let (_, buffer, s1) := BME280_read_register8 s CTRL_HUM 1
  let register_value := byteAt buffer 0
  let register_value := register_value &&& 0b11111000
  let register_value := (register_value ||| std_hum) % 256
  let (_, s2) := BME280_write_register s1 CTRL_HUM [register_value]
  let (status, _, s3) := BME280_read_register8 s2 CTRL_HUM 1
  (status, s3)

/-- Set the temperature oversampling to 1x.  The status of the read is
overwritten by the status of the write. -/
def BME280_set_temp_os (s : Driver) : ENV_SENSOR_STATUS × Driver :=
  let (_, buffer, s1) := BME280_read_register8 s CTRL_MEAS 1
  let register_value := byteAt buffer 0
  let register_value := register_value &&& 0b00011111
  let register_value := (register_value ||| std_temp) % 256
  BME280_write_register s1 CTRL_MEAS [register_value]

/-- Bring-up of the climate sensor. -/
def BME280_init (s : Driver) : ENV_SENSOR_STATUS × Driver :=
  let (status, buffer, s1) := BME280_read_register8 s ID_REG 1
  if status ≠ BME280_SUCCESS then (status, s1) else
  if byteAt buffer 0 ≠ 0x60 then (BME280_ID_ERR, s1) else
  let (status, s2) := BME280_read_calibration s1
  if status ≠ BME280_SUCCESS then (status, s2) else
  let (status, s3) := BME280_config s2
  if status ≠ BME280_SUCCESS then (status, s3) else
  let (status, s4) := BME280_set_mode s3 0
  if status ≠ BME280_SUCCESS then (status, s4) else
  let (status, s5) := BME280_set_hum_os s4
  if status ≠ BME280_SUCCESS then (status, s5) else
  let (status, s6) := BME280_set_temp_os s5
  if status ≠ BME280_SUCCESS then (status, s6) else
  let (status, s7) := BME280_set_mode s6 3
  if status ≠ BME280_SUCCESS then (status, s7) else
  (status, s7)

/-- Read the burst block and compensate the temperature.  `var1` and `var2`
are `int64_t` variables, but every operand of the two expressions is an
`int32_t`, so the products are formed in `int32_t`. -/
def BME280_read_temp (s : Driver) : ℚ × Driver :=
  let (_, buf, s1) := BME280_read_register8 s 0xF7 8
  let adc_Temp : Int := wrap32 ((((byteAt buf 3 <<< 12) % 4294967296) |||
    ((byteAt buf 4 <<< 4) % 4294967296) ||| ((byteAt buf 5 >>> 4) &&& 0x0F) : Nat) : Int)
  let T1 : Int := wrap32 (s1.dig_T1_val : Int)
  let T2 : Int := wrap32 s1.dig_T2_val
  let T3 : Int := wrap32 s1.dig_T3_val
  let var1 : Int := asr (mul32 (sub32 (asr adc_Temp 3) (shl32 T1 1)) T2) 11
  let var2 : Int :=
    asr (mul32 (asr (mul32 (sub32 (asr adc_Temp 4) T1) (sub32 (asr adc_Temp 4) T1)) 12) T3) 14
  let t_fine : Int := wrap32 (var1 + var2)
  let output : Int := asr (add32 (mul32 t_fine 5) 128) 8
  ((output : ℚ) / 100, { s1 with t_fine := t_fine })

/-- The clamped `int32_t` intermediate of the humidity compensation, as a
function of the ADC value, the coefficients and the stored fine temperature. -/
def BME280_hum_var1 (adc_H : Int) (s : Driver) : Int :=
  let H1 : Int := wrap32 (s.dig_H1_val : Int)
  let H2 : Int := wrap32 s.dig_H2_val
  let H3 : Int := wrap32 (s.dig_H3_val : Int)
  let H4 : Int := wrap32 s.dig_H4_val
  let H5 : Int := wrap32 s.dig_H5_val
  let H6 : Int := wrap32 s.dig_H6_val
  let var1 : Int := sub32 (wrap32 s.t_fine) 76800
  let var1 : Int :=
    mul32
      (asr (add32 (sub32 (sub32 (shl32 adc_H 14) (shl32 H4 20)) (mul32 H5 var1)) 16384) 15)
      (asr (add32 (mul32 (add32 (asr (mul32 (asr (mul32 var1 H6) 10)
          (add32 (asr (mul32 var1 H3) 11) 32768)) 10) 2097152) H2) 8192) 14)
  let var1 : Int := sub32 var1 (asr (mul32 (asr (mul32 (asr var1 15) (asr var1 15)) 7) H1) 4)
  let var1 : Int := if var1 < 0 then 0 else var1
  let var1 : Int := if var1 > 419430400 then 419430400 else var1
  var1

/-- Read the burst block and compensate the humidity against the stored
fine temperature. -/
def BME280_read_hum (s : Driver) : ℚ × Driver :=
  let (_, buf, s1) := BME280_read_register8 s 0xF7 8
  let adc_H : Int := wrap32 ((((byteAt buf 6 <<< 8) % 4294967296) ||| byteAt buf 7 : Nat) : Int)
  let var1 := BME280_hum_var1 adc_H s1
  ((asr var1 12 : ℚ) / 1024, s1)

/-! ## Definitions used to state the properties -/

/-- Rounding to the nearest integer (halves upward), the `round` of the
documented encoding formulas. -/
def roundNearest (q : ℚ) : ℤ := ⌊q + 1 / 2⌋

/-- Documented humidity field: `round((humidityPct × 1024 + 250) / 500)`. -/
def humidityField (humidityPct : ℚ) : ℤ := roundNearest ((humidityPct * 1024 + 250) / 500)

/-- Documented temperature field: `round((temperatureC × 1000 + 25250) / 500)`. -/
def temperatureField (temperatureC : ℚ) : ℤ :=
  roundNearest ((temperatureC * 1000 + 25250) / 500)

/-- A device on which every transaction succeeds and every register reads a
fixed value: identity `0x81`, status `0x10` (application valid, no error, no
new data), measurement mode `0b10000001`, result bytes `1, 2, 3, 4`, raw `H4`
word `0x1234` and raw `H5` word `0x5678`. -/
def demoDevice : List Txn → Txn → Reply := fun _ t =>
  match t with
  | Txn.memRead 0xB6 0x20 _ => ⟨true, [0x81]⟩
  | Txn.memRead 0xB6 0x00 _ => ⟨true, [0x10]⟩
  | Txn.memRead 0xB6 0x01 _ => ⟨true, [0b10000001]⟩
  | Txn.memRead 0xB6 0x02 _ => ⟨true, [1, 2, 3, 4]⟩
  | Txn.memRead 0xEE 0xE4 _ => ⟨true, [0x34, 0x12]⟩
  | Txn.memRead 0xEE 0xE5 _ => ⟨true, [0x78, 0x56]⟩
  | Txn.memRead 0xEE 0xF7 _ => ⟨true, [0, 0, 0, 0xFF, 0xFF, 0xF0, 0x80, 0x00]⟩
  | _ => ⟨true, [0, 0]⟩

/-- A driver on `demoDevice` with an empty log and all variables zero. -/
def demoDriver : Driver :=
  { device := demoDevice, log := [], CO2 := 0, tVOC := 0, dig_T1_val := 0, dig_T2_val := 0,
    dig_T3_val := 0, dig_H1_val := 0, dig_H2_val := 0, dig_H3_val := 0, dig_H4_val := 0,
    dig_H5_val := 0, dig_H6_val := 0, t_fine := 0 }

/-- Documented fine temperature: `var1 + var2` in unbounded integer arithmetic
with floor right-shifts, where `var1 = (((adc>>3) - (T1<<1)) * T2) >> 11` and
`var2 = (((((adc>>4) - T1) * ((adc>>4) - T1)) >> 12) * T3) >> 14`. -/
def fineTemperature (adc T1 T2 T3 : Int) : Int :=
  let var1 := asr ((asr adc 3 - T1 * 2) * T2) 11
  let var2 := asr (asr ((asr adc 4 - T1) * (asr adc 4 - T1)) 12 * T3) 14
  var1 + var2

/-- A driver on `demoDevice` (burst bytes 3..5 are `0xFF, 0xFF, 0xF0`, the ADC
temperature value `0xFFFFF`) with calibration `T1 = 0`, `T2 = 32767`,
`T3 = 0`. -/
def overflowDriver : Driver :=
  { demoDriver with dig_T1_val := 0, dig_T2_val := 32767, dig_T3_val := 0 }

/-- Effect of a register write on a register file (device address and
register address to byte): the bytes of `data` go to consecutive registers
starting at `reg`. -/
def regWrite (mem : Nat → Nat → Nat) (dev reg : Nat) (data : List Nat) : Nat → Nat → Nat :=
  fun d r => if d = dev ∧ reg ≤ r ∧ r < reg + data.length then data.getD (r - reg) 0 else mem d r

/-- Effect of one transaction on a register file: only writes change it. -/
def regStep (mem : Nat → Nat → Nat) : Txn → Nat → Nat → Nat
  | Txn.memWrite dev reg data => regWrite mem dev reg data
  | _ => mem

/-- Contents of a register file with initial contents `init` after the
transactions `hist`. -/
def regFile (init : Nat → Nat → Nat) (hist : List Txn) : Nat → Nat → Nat :=
  hist.foldl regStep init

/-- A device that behaves as a register file: every transaction succeeds and a
read returns, for each register, the last value written to it (the initial
value when it was never written). -/
def registerFileDevice (init : Nat → Nat → Nat) : List Txn → Txn → Reply := fun hist t =>
  match t with
  | Txn.memRead dev reg size =>
    ⟨true, (List.range size).map (fun i => regFile init hist dev (reg + i))⟩
  | _ => ⟨true, []⟩

/-- A driver on the register file whose registers all hold `0xFF` initially,
except the BME280 identity register, which holds `0x60`. -/
def registerFileDriver : Driver :=
  { demoDriver with
    device := registerFileDevice (fun d r => if d = 0xEE ∧ r = 0xD0 then 0x60 else 0xFF) }

/-- A device on which every transaction fails. -/
def deadDevice : List Txn → Txn → Reply := fun _ _ => ⟨false, []⟩

/-- A driver on `deadDevice`. -/
def deadDriver : Driver := { demoDriver with device := deadDevice }

/-- A device on which only the read of the `T1` calibration word succeeds
(with the bytes `0x34, 0x12`); every other transaction fails. -/
def calibFailDevice : List Txn → Txn → Reply := fun _ t =>
  match t with
  | Txn.memRead 0xEE 0x88 _ => ⟨true, [0x34, 0x12]⟩
  | _ => ⟨false, []⟩

/-- A driver on `calibFailDevice`, all variables zero. -/
def calibFailDriver : Driver := { demoDriver with device := calibFailDevice }

/-- A gas sensor with the right identity whose status register reads `0x11`:
error bit set, application valid. -/
def errorBitDevice : List Txn → Txn → Reply := fun _ t =>
  match t with
  | Txn.memRead 0xB6 0x20 _ => ⟨true, [0x81]⟩
  | Txn.memRead 0xB6 0x00 _ => ⟨true, [0x11]⟩
  | _ => ⟨true, [0]⟩

/-- A gas sensor with the right identity whose status register reads `0x00`:
no error, application not valid. -/
def appInvalidDevice : List Txn → Txn → Reply := fun _ t =>
  match t with
  | Txn.memRead 0xB6 0x20 _ => ⟨true, [0x81]⟩
  | Txn.memRead 0xB6 0x00 _ => ⟨true, [0x00]⟩
  | _ => ⟨true, [0]⟩

/-- A device on which every read succeeds (all bytes zero) and every write
fails. -/
def writeFailDevice : List Txn → Txn → Reply := fun _ t =>
  match t with
  | Txn.memRead _ _ _ => ⟨true, [0, 0]⟩
  | _ => ⟨false, []⟩

/-- A device on which every read fails and every write succeeds. -/
def readFailDevice : List Txn → Txn → Reply := fun _ t =>
  match t with
  | Txn.memRead _ _ _ => ⟨false, [0, 0]⟩
  | _ => ⟨true, []⟩

/-- The nine register reads of `BME280_read_calibration`, in program order. -/
def calibrationReads : List Txn :=
  [Txn.memRead BME280_ADDR dig_T1_reg 2, Txn.memRead BME280_ADDR dig_T2_reg 2,
   Txn.memRead BME280_ADDR dig_T3_reg 2, Txn.memRead BME280_ADDR dig_H1_reg 1,
   Txn.memRead BME280_ADDR dig_H2_reg 2, Txn.memRead BME280_ADDR dig_H3_reg 1,
   Txn.memRead BME280_ADDR dig_H4_reg 2, Txn.memRead BME280_ADDR dig_H5_reg 2,
   Txn.memRead BME280_ADDR dig_H6_reg 1]

/-- Reply of the device to calibration read number `k` (counted from 0) when
it is issued right after the reads before it. -/
def calibrationReply (s : Driver) (k : Nat) : Reply :=
  s.device (s.log ++ calibrationReads.take k) (calibrationReads.getD k (Txn.memRead 0 0 0))

/-- Whether calibration read number `k` succeeds. -/
def calibrationReadOk (s : Driver) (k : Nat) : Bool := (calibrationReply s k).ok

/-- The 16-bit word delivered by calibration read number `k` (little-endian). -/
def calibrationWord (s : Driver) (k : Nat) : Nat :=
  ((byteAt (calibrationReply s k).data 1 <<< 8) ||| byteAt (calibrationReply s k).data 0) % 65536

/-- The byte delivered by calibration read number `k`. -/
def calibrationByte (s : Driver) (k : Nat) : Nat := byteAt (calibrationReply s k).data 0

/-- A driver on `errorBitDevice`. -/
def errorBitDriver : Driver := { demoDriver with device := errorBitDevice }

/-- A driver on `appInvalidDevice`. -/
def appInvalidDriver : Driver := { demoDriver with device := appInvalidDevice }

/-- A driver on `writeFailDevice`. -/
def writeFailDriver : Driver := { demoDriver with device := writeFailDevice }

/-- A driver on `readFailDevice`. -/
def readFailDriver : Driver := { demoDriver with device := readFailDevice }

/-- The value `z` is representable in `int32_t`. -/
def fitsInt32 (z : Int) : Prop := -2147483648 ≤ z ∧ z ≤ 2147483647

/-- The 20-bit ADC temperature value of a burst snapshot, by the documented
formula `byte3<<12 | byte4<<4 | byte5>>4`. -/
def adcTemperature (buf : List Nat) : Nat :=
  (byteAt buf 3 <<< 12) ||| (byteAt buf 4 <<< 4) ||| (byteAt buf 5 >>> 4)

/-- The 16-bit ADC humidity value of a burst snapshot, `byte6<<8 | byte7`. -/
def adcHumidity (buf : List Nat) : Nat := (byteAt buf 6 <<< 8) ||| byteAt buf 7

/-- A device whose burst block reads `0, 0, 0, 0x7E, 0xED, 0x00, 0x80, 0x00`
(ADC temperature value 519888); every transaction succeeds. -/
def temperatureExampleDevice : List Txn → Txn → Reply := fun _ t =>
  match t with
  | Txn.memRead 0xEE 0xF7 _ => ⟨true, [0, 0, 0, 0x7E, 0xED, 0x00, 0x80, 0x00]⟩
  | _ => ⟨true, [0, 0]⟩

/-- A driver on `temperatureExampleDevice` with the calibration `T1 = 27504`,
`T2 = 26435`, `T3 = -1000`. -/
def temperatureExampleDriver : Driver :=
  { demoDriver with
    device := temperatureExampleDevice
    dig_T1_val := 27504
    dig_T2_val := 26435
    dig_T3_val := -1000 }


/-- The bytes left in the buffer by the burst read of `0xF7` (8 bytes) issued
in state `s`. -/
def burstBytes (s : Driver) : List Nat := (s.device s.log (Txn.memRead BME280_ADDR 0xF7 8)).data

/-- The sensor-bus transactions of one pass of `CCS811_init` from the
identity probe to the app-start command, in program order. -/
def bringUpHead : List Txn :=
  [Txn.memRead CCS811_ADDR 0x20 1, Txn.memWrite CCS811_ADDR SW_RESET [0x11, 0xE5, 0x72, 0x8A],
   Txn.memRead CCS811_ADDR STATUS_REG 1, Txn.memRead CCS811_ADDR STATUS_REG 1,
   Txn.masterTransmit CCS811_ADDR [APP_START]]

/-- The byte read from `MEAS_MODE` by the read-modify-write of the drive mode
when it is issued right after the transactions of `bringUpHead`. -/
def bringUpModeByte (s : Driver) : Nat :=
  byteAt (s.device (s.log ++ bringUpHead) (Txn.memRead CCS811_ADDR MEAS_MODE 1)).data 0

/-- The eight sensor-bus transactions of one pass of `CCS811_init` whose
identity probe is accepted, in program order (steps 0 to 7: identity probe,
reset key, status read, status read, app start, mode read, mode write, status
read). -/
def bringUpTxns (s : Driver) : List Txn :=
  bringUpHead ++
    [Txn.memRead CCS811_ADDR MEAS_MODE 1,
     Txn.memWrite CCS811_ADDR MEAS_MODE
       [((bringUpModeByte s &&& not32 0x70) % 256 ||| (1 <<< 4)) % 256],
     Txn.memRead CCS811_ADDR STATUS_REG 1]

/-- Reply of the device to step `i` of the bring-up when it is issued right
after the steps before it. -/
def bringUpReply (s : Driver) (i : Nat) : Reply :=
  s.device (s.log ++ (bringUpTxns s).take i) ((bringUpTxns s).getD i (Txn.memRead 0 0 0))

/-- Whether step `i` of the bring-up makes `CCS811_init` leave the straight
path: the identity probe fails or reads a value other than `0x81` (step 0), a
transport failure (steps 1, 4, 5, 6), the error bit set (steps 2, 7), the
app-valid bit clear (step 3). -/
def bringUpStepFails (s : Driver) (i : Nat) : Bool :=
  match i with
  | 0 => !(bringUpReply s 0).ok || byteAt (bringUpReply s 0).data 0 != 0x81
  | 1 => !(bringUpReply s 1).ok
  | 2 => byteAt (bringUpReply s 2).data 0 &&& 0x01 != 0
  | 3 => (byteAt (bringUpReply s 3).data 0 >>> 4) &&& 0x01 != 1
  | 4 => !(bringUpReply s 4).ok
  | 5 => !(bringUpReply s 5).ok
  | 6 => !(bringUpReply s 6).ok
  | 7 => byteAt (bringUpReply s 7).data 0 &&& 0x01 != 0
  | _ => false

/-- The status `CCS811_init` returns when step `i` (1 to 7) is the first to
fail. -/
def bringUpStepStatus (i : Nat) : ENV_SENSOR_STATUS :=
  match i with
  | 1 => CCS811_I2C_ERROR
  | 4 => CCS811_I2C_ERROR
  | 5 => CCS811_I2C_ERROR
  | 6 => CCS811_I2C_ERROR
  | _ => CCS811_ERROR

/-- Whether identity probe number `i` (counted from 0) of `CCS811_init` is
rejected, when it is issued right after `i` earlier probes: the transport
fails or the byte read is not `0x81`. -/
def probeFails (s : Driver) (i : Nat) : Bool :=
  !(s.device (s.log ++ List.replicate i (Txn.memRead CCS811_ADDR 0x20 1))
      (Txn.memRead CCS811_ADDR 0x20 1)).ok ||
    byteAt (s.device (s.log ++ List.replicate i (Txn.memRead CCS811_ADDR 0x20 1))
      (Txn.memRead CCS811_ADDR 0x20 1)).data 0 != 0x81

/-- A gas sensor whose identity register reads `0x55` on the very first
transaction and `0x81` afterwards; the status register reads `0x10`, every
transaction succeeds. -/
def retryDevice : List Txn → Txn → Reply := fun hist t =>
  match t with
  | Txn.memRead 0xB6 0x20 _ => if hist.isEmpty then ⟨true, [0x55]⟩ else ⟨true, [0x81]⟩
  | Txn.memRead 0xB6 0x00 _ => ⟨true, [0x10]⟩
  | _ => ⟨true, [0]⟩

/-- A driver on `retryDevice`. -/
def retryDriver : Driver := { demoDriver with device := retryDevice }

/-- Application return codes, in the order of the C enumeration
(`office_environment_monitor.h`). -/
inductive RETURN_STATUS
  | ESP8266_START_SUCCESS
  | ESP8266_START_ERROR
  | ESP8266_WIFI_CON_SUCCESS
  | ESP8266_WIFI_CON_ERROR
  | ESP8266_WEB_CONNECTED
  | ESP8266_WEB_DISCONNECTED
  | ESP8266_WEB_REQUEST_SUCCESS
  | ESP8266_WEB_REQUEST_ERROR
  | CCS811_START_SUCCESS
  | CCS811_START_ERROR
  | CCS811_RUNNING_ERROR
  | BME280_START_SUCCESS
  | BME280_START_ERROR
  deriving DecidableEq, Repr

open RETURN_STATUS

/-- Application-level bring-up of the gas sensor (`ccs811_start` of
`office_environment_monitor.c`).  The progress marks it writes to the display
go out on the other I2C bus and are left out, as is `HAL_Delay`.  The second
component of the result is the application variable `current_sensor_status`;
`fuel` bounds the identity probes as in `CCS811_init`. -/
def ccs811_start (fuel : Nat) (s : Driver) :
    Option (RETURN_STATUS × ENV_SENSOR_STATUS × Driver) :=
  match fuel with
  | 0 => none
  | fuel + 1 =>
    let (hal_status, buffer, s1) := HAL_I2C_Mem_Read s CCS811_ADDR 0x20 1
    let register_value := byteAt buffer 0
    if !hal_status ∨ register_value ≠ 0x81 then ccs811_start fuel s1 else
    let (current_sensor_status, s2) := CCS811_reset s1
    if current_sensor_status ≠ CCS811_SUCCESS then
      some (CCS811_START_ERROR, current_sensor_status, s2) else
    let (err, s3) := CCS811_read_status_error s2
    if err ≠ 0 then some (CCS811_START_ERROR, current_sensor_status, s3) else
    let (valid, s4) := CCS811_read_app_valid s3
    if valid ≠ 1 then some (CCS811_START_ERROR, current_sensor_status, s4) else
    let (current_sensor_status, s5) := CCS811_app_start s4
    if current_sensor_status ≠ CCS811_SUCCESS then
      some (CCS811_START_ERROR, current_sensor_status, s5) else
    let (current_sensor_status, s6) := CCS811_write_mode s5 1
    if current_sensor_status ≠ CCS811_SUCCESS then
      some (CCS811_START_ERROR, current_sensor_status, s6) else
    let (err, s7) := CCS811_read_status_error s6
    if err ≠ 0 then some (CCS811_START_ERROR, current_sensor_status, s7) else
    some (CCS811_START_SUCCESS, current_sensor_status, s7)

/-- One pass through the body of the polling loop of
`office_environment_monitor`, restricted to the sensor bus: the display sits
on the other I2C bus and the Wi-Fi module on a UART, and both are left out.
When the poll reports no new data and the error bit is set, the error handler
reads the error id (and then halts).  The result is `none` when a `float`
conversion of `CCS811_set_temp_hum` is undefined. -/
def office_environment_monitor_iteration (s : Driver) : Option Driver :=
  let avail := CCS811_data_available s
  if avail.1 = CCS811_NEW_DATA then
    let res := CCS811_read_alg_res avail.2
    let temperature := BME280_read_temp res.2
    let humidity := BME280_read_hum temperature.2
    (CCS811_set_temp_hum humidity.2 temperature.1 humidity.1).map (fun p => p.2)
  else
    let err := CCS811_read_status_error avail.2
    if err.1 ≠ 0 then some (CCS811_read_error_id err.2).2 else some err.2

/-- The temperature that the polling iteration started in state `s` reads
(after the status poll and the result read). -/
def iterationTemperature (s : Driver) : ℚ :=
  (BME280_read_temp (CCS811_read_alg_res (CCS811_data_available s).2).2).1

/-- The humidity that the polling iteration started in state `s` reads. -/
def iterationHumidity (s : Driver) : ℚ :=
  (BME280_read_hum
    (BME280_read_temp (CCS811_read_alg_res (CCS811_data_available s).2).2).2).1

/-- A device whose gas sensor reports new data (status `0x18`: data ready, app
valid, no error) with result bytes `1, 2, 3, 4`, and whose burst block reads
`0, 0, 0, 0x7E, 0xED, 0x00, 0x80, 0x00`; every transaction succeeds. -/
def newDataDevice : List Txn → Txn → Reply := fun _ t =>
  match t with
  | Txn.memRead 0xB6 0x00 _ => ⟨true, [0x18]⟩
  | Txn.memRead 0xB6 0x02 _ => ⟨true, [1, 2, 3, 4]⟩
  | Txn.memRead 0xEE 0xF7 _ => ⟨true, [0, 0, 0, 0x7E, 0xED, 0x00, 0x80, 0x00]⟩
  | _ => ⟨true, [0, 0]⟩

/-- A driver on `newDataDevice` with the calibration `T1 = 27504`,
`T2 = 26435`, `T3 = -1000` and zero humidity coefficients. -/
def newDataDriver : Driver := { temperatureExampleDriver with device := newDataDevice }

/-! ## Auxiliary lemmas -/

theorem floatToU32_of_nonneg (q : ℚ) (h0 : 0 ≤ q) (h1 : q < 4294967296) :
    floatToU32 q = some ⌊q⌋.toNat := by
  have hz : (0 : ℤ) ≤ ⌊q⌋ := Int.floor_nonneg.mpr h0
  have hlt : ⌊q⌋ < 4294967296 := by
    have hle : ((⌊q⌋ : ℤ) : ℚ) ≤ q := Int.floor_le q
    have h2 : ((⌊q⌋ : ℤ) : ℚ) < ((4294967296 : ℤ) : ℚ) := by push_cast; linarith
    exact_mod_cast h2
  simp [floatToU32, h0, hz, hlt]

theorem floatToU32_of_neg (q : ℚ) (h : q ≤ -1) : floatToU32 q = none := by
  have hq : ¬ (0 ≤ q) := by linarith
  have hc : ⌈q⌉ ≤ -1 := by
    apply Int.ceil_le.mpr
    push_cast
    exact h
  have hz : ¬ (0 ≤ ⌈q⌉) := by omega
  simp [floatToU32, hq, hz]

theorem floor_toNat_le (q : ℚ) (n : Nat) (h : q ≤ n) : ⌊q⌋.toNat ≤ n := by
  have h1 : ⌊q⌋ ≤ (n : ℤ) := by
    have h2 : ((⌊q⌋ : ℤ) : ℚ) ≤ ((n : ℤ) : ℚ) := by
      push_cast
      exact le_trans (Int.floor_le q) h
    exact_mod_cast h2
  omega

theorem humidity_byte_exact (n : Nat) (h : n ≤ 102400) :
    (n + 250) % 4294967296 / 500 % 256 = (n + 250) / 500 ∧ (n + 250) / 500 ≤ 205 := by
  omega

theorem temperature_byte_exact (n : Nat) (h : n ≤ 50000) :
    (n + 25250) % 4294967296 / 500 % 256 = (n + 25250) / 500 ∧ (n + 25250) / 500 ≤ 150 := by
  omega

theorem byteAt_lt (buf : List Nat) (i : Nat) : byteAt buf i < 256 := by
  unfold byteAt
  omega

theorem CCS811_read_register_eq (s : Driver) (reg size : Nat) :
    CCS811_read_register s reg size =
      (if (s.device s.log (Txn.memRead CCS811_ADDR reg size)).ok = true
        then CCS811_SUCCESS else CCS811_I2C_ERROR,
       (s.device s.log (Txn.memRead CCS811_ADDR reg size)).data,
       { s with log := s.log ++ [Txn.memRead CCS811_ADDR reg size] }) := by
  simp only [CCS811_read_register, HAL_I2C_Mem_Read]
  cases (s.device s.log (Txn.memRead CCS811_ADDR reg size)).ok <;> rfl

theorem CCS811_write_register_eq (s : Driver) (reg : Nat) (buffer : List Nat) :
    CCS811_write_register s reg buffer =
      (if (s.device s.log (Txn.memWrite CCS811_ADDR reg buffer)).ok = true
        then CCS811_SUCCESS else CCS811_I2C_ERROR,
       { s with log := s.log ++ [Txn.memWrite CCS811_ADDR reg buffer] }) := by
  simp only [CCS811_write_register, HAL_I2C_Mem_Write]
  cases (s.device s.log (Txn.memWrite CCS811_ADDR reg buffer)).ok <;> rfl

set_option maxRecDepth 100000 in
theorem mode_byte_all :
    ∀ m < 5, ∀ r < 256,
      ((r &&& not32 0x70) % 256 ||| (m <<< 4)) % 256 = (r &&& (0xFF ^^^ 0x70)) ||| (m <<< 4) ∧
      (((r &&& (0xFF ^^^ 0x70)) ||| (m <<< 4)) >>> 4) &&& 7 = m ∧
      ((r &&& (0xFF ^^^ 0x70)) ||| (m <<< 4)) &&& 0x8F = r &&& 0x8F := by
  decide

set_option maxRecDepth 100000 in
theorem ready_bit_all :
    ∀ b < 256, ((b &&& 0x08) >>> 3 = 0 ↔ b.testBit 3 = false) := by
  decide

theorem BME280_read_register8_eq (s : Driver) (reg size : Nat) :
    BME280_read_register8 s reg size =
      (if (s.device s.log (Txn.memRead BME280_ADDR reg size)).ok = true
        then BME280_SUCCESS else BME280_I2C_ERROR,
       (s.device s.log (Txn.memRead BME280_ADDR reg size)).data,
       { s with log := s.log ++ [Txn.memRead BME280_ADDR reg size] }) := by
  simp only [BME280_read_register8, HAL_I2C_Mem_Read]
  cases (s.device s.log (Txn.memRead BME280_ADDR reg size)).ok <;> rfl

theorem BME280_read_register16_ok (s : Driver) (reg : Nat)
    (h : (s.device s.log (Txn.memRead BME280_ADDR reg 2)).ok = true) :
    BME280_read_register16 s reg =
      (BME280_SUCCESS,
       ((byteAt (s.device s.log (Txn.memRead BME280_ADDR reg 2)).data 1 <<< 8) |||
         byteAt (s.device s.log (Txn.memRead BME280_ADDR reg 2)).data 0) % 65536,
       { s with log := s.log ++ [Txn.memRead BME280_ADDR reg 2] }) := by
  simp [BME280_read_register16, HAL_I2C_Mem_Read, h]

theorem word_of_bytes (hi lo : Nat) (hhi : hi < 256) (hlo : lo < 256) :
    (hi <<< 8) ||| lo = hi * 256 + lo ∧ (hi <<< 8) ||| lo < 65536 := by
  have e : (hi <<< 8) ||| lo = hi * 256 + lo := by
    rw [Nat.shiftLeft_eq, Nat.mul_comm hi (2 ^ 8)]
    exact (Nat.mul_add_lt_is_or (by omega) hi).symm
  exact ⟨e, by omega⟩

theorem wrap16_of_lt (n : Nat) (h : n < 32768) : wrap16 (n : Int) = (n : Int) := by
  unfold wrap16
  omega

theorem H4_field_lt (raw : Nat) :
    (raw &&& 0x00FF) <<< 4 < 4096 ∧ (raw &&& 0x0F00) >>> 8 < 4096 ∧
      ((raw &&& 0x00FF) <<< 4 ||| (raw &&& 0x0F00) >>> 8) < 4096 := by
  have h1 : raw &&& 0x00FF ≤ 0x00FF := Nat.and_le_right
  have h2 : raw &&& 0x0F00 ≤ 0x0F00 := Nat.and_le_right
  have a : (raw &&& 0x00FF) <<< 4 < 2 ^ 12 := by
    rw [Nat.shiftLeft_eq]
    omega
  have b : (raw &&& 0x0F00) >>> 8 < 2 ^ 12 := by
    rw [Nat.shiftRight_eq_div_pow]
    omega
  exact ⟨a, b, Nat.or_lt_two_pow a b⟩

theorem clamp_bounds (x : Int) :
    0 ≤ (if (if x < 0 then 0 else x) > 419430400 then 419430400
          else (if x < 0 then 0 else x)) ∧
      (if (if x < 0 then 0 else x) > 419430400 then 419430400
          else (if x < 0 then 0 else x)) ≤ 419430400 := by
  split_ifs <;> omega

theorem BME280_hum_var1_bounds (adc_H : Int) (s : Driver) :
    0 ≤ BME280_hum_var1 adc_H s ∧ BME280_hum_var1 adc_H s ≤ 419430400 := by
  unfold BME280_hum_var1
  exact clamp_bounds _

theorem asr12_bounds (x : Int) (h0 : 0 ≤ x) (h1 : x ≤ 419430400) :
    0 ≤ asr x 12 ∧ asr x 12 ≤ 102400 := by
  unfold asr
  rw [Int.shiftRight_eq_div_pow]
  norm_num
  omega

/-! ## Environmental compensation (`CCS811_set_temp_hum`) -/

/-- C1 (as stated, refuted): at temperature 20 and humidity 50 the driver
writes the payload `[102, 0, 90, 0]` to register `0x05`, whereas the documented
formulas give humidity field 103 and temperature field 91. -/
theorem C1_payload_not_rounded :
    (CCS811_set_temp_hum demoDriver 20 50).map (fun p => (p.1, p.2.log)) =
        some (CCS811_SUCCESS, [Txn.memWrite 0xB6 0x05 [102, 0x00, 90, 0x00]]) ∧
      humidityField 50 = 103 ∧ temperatureField 20 = 91 ∧
      (CCS811_set_temp_hum demoDriver 20 50).map (fun p => p.2.log) ≠
        some [Txn.memWrite 0xB6 0x05
          [(humidityField 50).toNat, 0x00, (temperatureField 20).toNat, 0x00]] := by
  have h1 : floatToU32 ((50 : ℚ) * 1024) = some 51200 := by
    rw [floatToU32_of_nonneg _ (by norm_num) (by norm_num)]
    norm_num
    rfl
  have h2 : floatToU32 ((20 : ℚ) * 1000) = some 20000 := by
    rw [floatToU32_of_nonneg _ (by norm_num) (by norm_num)]
    norm_num
    rfl
  have hf : humidityField 50 = 103 := by
    unfold humidityField roundNearest
    rw [Int.floor_eq_iff]
    norm_num
  have tf : temperatureField 20 = 91 := by
    unfold temperatureField roundNearest
    rw [Int.floor_eq_iff]
    norm_num
  refine ⟨?_, hf, tf, ?_⟩
  · simp [CCS811_set_temp_hum, h1, h2, CCS811_write_register, HAL_I2C_Mem_Write, demoDriver,
      demoDevice, ENV_DATA, CCS811_ADDR]
    norm_num
    exact ⟨_, _, ⟨rfl, rfl⟩, rfl, rfl⟩
  · rw [hf, tf]
    simp [CCS811_set_temp_hum, h1, h2, CCS811_write_register, HAL_I2C_Mem_Write, demoDriver,
      demoDevice, ENV_DATA, CCS811_ADDR]
    norm_num

/-- C1 (amended): for every temperature in [0, 50] and humidity in [0, 100],
when the bus write succeeds, the driver returns success after writing to
register `0x05` the single 4-byte payload whose byte 0 is
`(⌊h * 1024⌋ + 250) / 500` and whose byte 2 is `(⌊t * 1000⌋ + 25250) / 500`,
both with truncating integer division, bytes 1 and 3 being zero. -/
theorem C1_payload_truncated (s : Driver) (t h : ℚ)
    (ht0 : 0 ≤ t) (ht : t ≤ 50) (hh0 : 0 ≤ h) (hh : h ≤ 100)
    (hw : ∀ d, (s.device s.log (Txn.memWrite CCS811_ADDR ENV_DATA d)).ok = true) :
    ∃ s1, CCS811_set_temp_hum s t h = some (CCS811_SUCCESS, s1) ∧
      s1.log = s.log ++ [Txn.memWrite 0xB6 0x05
        [(⌊h * 1024⌋.toNat + 250) / 500, 0x00, (⌊t * 1000⌋.toNat + 25250) / 500, 0x00]] ∧
      (⌊h * 1024⌋.toNat + 250) / 500 ≤ 205 ∧ (⌊t * 1000⌋.toNat + 25250) / 500 ≤ 150 := by
  have hH : floatToU32 (h * 1024) = some ⌊h * 1024⌋.toNat :=
    floatToU32_of_nonneg _ (by positivity) (by linarith)
  have hT : floatToU32 (t * 1000) = some ⌊t * 1000⌋.toNat :=
    floatToU32_of_nonneg _ (by positivity) (by linarith)
  have bH : ⌊h * 1024⌋.toNat ≤ 102400 := floor_toNat_le _ 102400 (by push_cast; linarith)
  have bT : ⌊t * 1000⌋.toNat ≤ 50000 := floor_toNat_le _ 50000 (by push_cast; linarith)
  have hrange : ¬ (t < -25 ∨ t > 50 ∨ h < 0 ∨ h > 100) := by
    intro hc
    rcases hc with hc | hc | hc | hc <;> linarith
  obtain ⟨e1, b1⟩ := humidity_byte_exact _ bH
  obtain ⟨e2, b2⟩ := temperature_byte_exact _ bT
  refine ⟨{ s with log := s.log ++ [Txn.memWrite 0xB6 0x05
    [(⌊h * 1024⌋.toNat + 250) / 500, 0x00, (⌊t * 1000⌋.toNat + 25250) / 500, 0x00]] },
    ?_, rfl, b1, b2⟩
  have hw1 := hw [(⌊h * 1024⌋.toNat + 250) / 500, 0x00, (⌊t * 1000⌋.toNat + 25250) / 500, 0x00]
  simp only [CCS811_ADDR, ENV_DATA] at hw1
  simp only [CCS811_set_temp_hum, if_neg hrange, hH, hT, CCS811_write_register,
    HAL_I2C_Mem_Write, e1, e2, CCS811_ADDR, ENV_DATA]
  simp [hw1]

/-- Witness for C1 (amended): temperature 20, humidity 50 on the demo device. -/
theorem C1_payload_truncated_witness :
    ∃ s1, CCS811_set_temp_hum demoDriver 20 50 = some (CCS811_SUCCESS, s1) ∧
      s1.log = demoDriver.log ++ [Txn.memWrite 0xB6 0x05
        [(⌊(50 : ℚ) * 1024⌋.toNat + 250) / 500, 0x00,
         (⌊(20 : ℚ) * 1000⌋.toNat + 25250) / 500, 0x00]] ∧
      (⌊(50 : ℚ) * 1024⌋.toNat + 250) / 500 ≤ 205 ∧
      (⌊(20 : ℚ) * 1000⌋.toNat + 25250) / 500 ≤ 150 :=
  C1_payload_truncated demoDriver 20 50 (by norm_num) (by norm_num) (by norm_num) (by norm_num)
    (by intro d; rfl)

/-- C2: `CCS811_set_temp_hum` returns at its range check, with `CCS811_ERROR`
and an untouched driver (hence no bus transaction), exactly when the
temperature is below -25 or above 50 or the humidity is below 0 or above 100;
any other input (the four bounds included) passes the check: the call then
either reaches the single write to register `0x05` and does not return
`CCS811_ERROR`, or stops at a `float` conversion that C leaves undefined. -/
theorem C2_range_rejection (s : Driver) (t h : ℚ) :
    ((t < -25 ∨ t > 50 ∨ h < 0 ∨ h > 100) →
      CCS811_set_temp_hum s t h = some (CCS811_ERROR, s)) ∧
    (¬ (t < -25 ∨ t > 50 ∨ h < 0 ∨ h > 100) →
      CCS811_set_temp_hum s t h = none ∨
      ∃ st d, st ≠ CCS811_ERROR ∧ CCS811_set_temp_hum s t h =
        some (st, { s with log := s.log ++ [Txn.memWrite CCS811_ADDR ENV_DATA d] })) := by
  constructor
  · intro hc
    simp only [CCS811_set_temp_hum, if_pos hc]
  · intro hc
    simp only [CCS811_set_temp_hum, if_neg hc]
    cases hH : floatToU32 (h * 1024) with
    | none => left; rfl
    | some hum_t =>
      cases hT : floatToU32 (t * 1000) with
      | none => left; rfl
      | some temp_t =>
        right
        simp only [CCS811_write_register_eq]
        cases hok : (s.device s.log (Txn.memWrite CCS811_ADDR ENV_DATA
            [(hum_t + 250) % 4294967296 / 500 % 256, 0x00,
             (temp_t + 25250) % 4294967296 / 500 % 256, 0x00])).ok with
        | false =>
          exact ⟨CCS811_I2C_ERROR, [(hum_t + 250) % 4294967296 / 500 % 256, 0x00,
            (temp_t + 25250) % 4294967296 / 500 % 256, 0x00], by decide, by simp⟩
        | true =>
          exact ⟨CCS811_SUCCESS, [(hum_t + 250) % 4294967296 / 500 % 256, 0x00,
            (temp_t + 25250) % 4294967296 / 500 % 256, 0x00], by decide, by simp⟩

/-- Witness for C2: temperature 51 and humidity -1 are rejected without a bus
transaction; the bounds 50 / 100 and -25 / 0 pass the range check. -/
theorem C2_range_rejection_witness :
    CCS811_set_temp_hum demoDriver 51 50 = some (CCS811_ERROR, demoDriver) ∧
    CCS811_set_temp_hum demoDriver 20 (-1) = some (CCS811_ERROR, demoDriver) ∧
    (CCS811_set_temp_hum demoDriver 50 100 = none ∨
      ∃ st d, st ≠ CCS811_ERROR ∧ CCS811_set_temp_hum demoDriver 50 100 =
        some (st, { demoDriver with
          log := demoDriver.log ++ [Txn.memWrite CCS811_ADDR ENV_DATA d] })) ∧
    (CCS811_set_temp_hum demoDriver (-25) 0 = none ∨
      ∃ st d, st ≠ CCS811_ERROR ∧ CCS811_set_temp_hum demoDriver (-25) 0 =
        some (st, { demoDriver with
          log := demoDriver.log ++ [Txn.memWrite CCS811_ADDR ENV_DATA d] })) :=
  ⟨(C2_range_rejection demoDriver 51 50).1 (by norm_num),
   (C2_range_rejection demoDriver 20 (-1)).1 (by norm_num),
   (C2_range_rejection demoDriver 50 100).2 (by norm_num),
   (C2_range_rejection demoDriver (-25) 0).2 (by norm_num)⟩

/-! ## Drive mode (`CCS811_write_mode`) -/

/-- C3: for every mode `m` in 0..4 and every value `r` read from `MEAS_MODE`,
when the read and the write succeed `CCS811_write_mode` returns success after
exactly the read of register `0x01` followed by the write of the one byte
`(r AND NOT 0x70) OR (m << 4)` to register `0x01`; bits 4-6 of that byte are
`m` and its bits 0-3 and 7 are those of `r`. -/
theorem C3_write_mode_read_modify_write (s : Driver) (m r : Nat) (hm : m ≤ 4)
    (hread : (s.device s.log (Txn.memRead CCS811_ADDR MEAS_MODE 1)).ok = true)
    (hr : byteAt (s.device s.log (Txn.memRead CCS811_ADDR MEAS_MODE 1)).data 0 = r)
    (hwrite : ∀ d, (s.device (s.log ++ [Txn.memRead CCS811_ADDR MEAS_MODE 1])
      (Txn.memWrite CCS811_ADDR MEAS_MODE d)).ok = true) :
    CCS811_write_mode s m = (CCS811_SUCCESS, { s with log := s.log ++
      [Txn.memRead 0xB6 0x01 1,
       Txn.memWrite 0xB6 0x01 [(r &&& (0xFF ^^^ 0x70)) ||| (m <<< 4)]] }) ∧
    (((r &&& (0xFF ^^^ 0x70)) ||| (m <<< 4)) >>> 4) &&& 7 = m ∧
    ((r &&& (0xFF ^^^ 0x70)) ||| (m <<< 4)) &&& 0x8F = r &&& 0x8F := by
  have hr256 : r < 256 := hr ▸ byteAt_lt _ _
  obtain ⟨e, b1, b2⟩ := mode_byte_all m (by omega) r hr256
  refine ⟨?_, b1, b2⟩
  have hw1 := hwrite [(r &&& (0xFF ^^^ 0x70)) ||| (m <<< 4)]
  have hm4 : ¬ (m > 4) := by omega
  simp only [CCS811_write_mode, if_neg hm4, CCS811_read_register_eq,
    CCS811_write_register_eq, hread, hr, e, hw1, if_true, ne_eq, not_true_eq_false, if_false]
  simp [CCS811_ADDR, MEAS_MODE]

/-- Witness for C3: the register holds `0b10000001` and mode 2 is requested;
the byte written is `0b10100001`. -/
theorem C3_write_mode_read_modify_write_witness :
    CCS811_write_mode demoDriver 2 = (CCS811_SUCCESS, { demoDriver with log := demoDriver.log ++
      [Txn.memRead 0xB6 0x01 1, Txn.memWrite 0xB6 0x01 [0b10100001]] }) :=
  (C3_write_mode_read_modify_write demoDriver 2 0b10000001 (by decide) rfl rfl
    (fun _ => rfl)).1

/-- C4: every 8-bit mode value above 4 makes `CCS811_write_mode` return
`CCS811_ERROR` with the driver untouched, so neither the read nor the write of
the register is issued; every mode in 0..4 passes validation: the register
read is issued and the status returned is not `CCS811_ERROR`. -/
theorem C4_write_mode_validation (s : Driver) (m : Nat) (hm8 : m < 256) :
    (4 < m → CCS811_write_mode s m = (CCS811_ERROR, s)) ∧
    (m ≤ 4 → (CCS811_write_mode s m).1 ≠ CCS811_ERROR ∧
      ∃ rest, (CCS811_write_mode s m).2.log =
        s.log ++ Txn.memRead CCS811_ADDR MEAS_MODE 1 :: rest) := by
  constructor
  · intro h
    simp only [CCS811_write_mode, gt_iff_lt, if_pos h]
  · intro h
    have hm4 : ¬ (m > 4) := by omega
    simp only [CCS811_write_mode, if_neg hm4, CCS811_read_register_eq,
      CCS811_write_register_eq]
    cases hok : (s.device s.log (Txn.memRead CCS811_ADDR MEAS_MODE 1)).ok with
    | false => exact ⟨by simp, [], by simp⟩
    | true =>
      refine ⟨?_, [Txn.memWrite CCS811_ADDR MEAS_MODE
        [((byteAt (s.device s.log (Txn.memRead CCS811_ADDR MEAS_MODE 1)).data 0 &&&
          not32 0x70) % 256 ||| (m <<< 4)) % 256]], by simp⟩
      simp only [if_true, ne_eq, not_true_eq_false, if_false]
      split <;> simp

/-- Witness for C4: mode 5 is rejected without a transaction, mode 4 is not. -/
theorem C4_write_mode_validation_witness :
    CCS811_write_mode demoDriver 5 = (CCS811_ERROR, demoDriver) ∧
    ((CCS811_write_mode demoDriver 4).1 ≠ CCS811_ERROR ∧
      ∃ rest, (CCS811_write_mode demoDriver 4).2.log =
        demoDriver.log ++ Txn.memRead CCS811_ADDR MEAS_MODE 1 :: rest) :=
  ⟨(C4_write_mode_validation demoDriver 5 (by decide)).1 (by decide),
   (C4_write_mode_validation demoDriver 4 (by decide)).2 (by decide)⟩

/-! ## Data availability (`CCS811_data_available`) -/

/-- C5: `CCS811_data_available` issues one read of the status register and
returns `CCS811_I2C_ERROR` exactly when that read fails, `CCS811_NEW_DATA`
exactly when it succeeds with bit 3 of the status byte set, and
`CCS811_NO_NEW_DATA` exactly when it succeeds with bit 3 clear; the three
results are pairwise distinct. -/
theorem C5_data_available_tristate (s : Driver) :
    ((CCS811_data_available s).1 = CCS811_I2C_ERROR ↔
      (s.device s.log (Txn.memRead CCS811_ADDR STATUS_REG 1)).ok = false) ∧
    ((CCS811_data_available s).1 = CCS811_NEW_DATA ↔
      (s.device s.log (Txn.memRead CCS811_ADDR STATUS_REG 1)).ok = true ∧
      (byteAt (s.device s.log (Txn.memRead CCS811_ADDR STATUS_REG 1)).data 0).testBit 3
        = true) ∧
    ((CCS811_data_available s).1 = CCS811_NO_NEW_DATA ↔
      (s.device s.log (Txn.memRead CCS811_ADDR STATUS_REG 1)).ok = true ∧
      (byteAt (s.device s.log (Txn.memRead CCS811_ADDR STATUS_REG 1)).data 0).testBit 3
        = false) ∧
    (CCS811_data_available s).2 =
      { s with log := s.log ++ [Txn.memRead CCS811_ADDR STATUS_REG 1] } ∧
    CCS811_I2C_ERROR ≠ CCS811_NEW_DATA ∧ CCS811_I2C_ERROR ≠ CCS811_NO_NEW_DATA ∧
    CCS811_NEW_DATA ≠ CCS811_NO_NEW_DATA := by
  have hbit := ready_bit_all
    (byteAt (s.device s.log (Txn.memRead CCS811_ADDR STATUS_REG 1)).data 0) (byteAt_lt _ _)
  simp only [CCS811_data_available, CCS811_read_register_eq]
  cases hok : (s.device s.log (Txn.memRead CCS811_ADDR STATUS_REG 1)).ok with
  | false => simp
  | true =>
    cases hv : (byteAt (s.device s.log (Txn.memRead CCS811_ADDR STATUS_REG 1)).data 0).testBit 3
      with
    | false =>
      have hb := hbit.mpr hv
      simp [hb]
    | true =>
      have hb : ¬ ((byteAt (s.device s.log (Txn.memRead CCS811_ADDR STATUS_REG 1)).data 0
          &&& 0x08) >>> 3 = 0) := by
        intro h0
        have := hbit.mp h0
        simp [hv] at this
      simp [hb]

/-! ## Calibration decode (`BME280_read_calibration`) -/

/-- C6: when the nine calibration reads succeed and the 16-bit words read from
registers `0xE4` and `0xE5` are `rawH4` and `rawH5`, `BME280_read_calibration`
returns success and stores
`H4 = ((rawH4 AND 0x00FF) << 4) OR ((rawH4 AND 0x0F00) >> 8)` and
`H5 = rawH5 >> 4`. -/
theorem C6_calibration_H4_H5_decode (s : Driver) (rawH4 rawH5 : Nat)
    (hok : ∀ hist t, (s.device hist t).ok = true)
    (h4 : ∀ hist, (byteAt (s.device hist (Txn.memRead BME280_ADDR dig_H4_reg 2)).data 1 <<< 8) |||
      byteAt (s.device hist (Txn.memRead BME280_ADDR dig_H4_reg 2)).data 0 = rawH4)
    (h5 : ∀ hist, (byteAt (s.device hist (Txn.memRead BME280_ADDR dig_H5_reg 2)).data 1 <<< 8) |||
      byteAt (s.device hist (Txn.memRead BME280_ADDR dig_H5_reg 2)).data 0 = rawH5) :
    (BME280_read_calibration s).1 = BME280_SUCCESS ∧
    (BME280_read_calibration s).2.dig_H4_val =
      (((rawH4 &&& 0x00FF) <<< 4 ||| (rawH4 &&& 0x0F00) >>> 8 : Nat) : Int) ∧
    (BME280_read_calibration s).2.dig_H5_val = ((rawH5 >>> 4 : Nat) : Int) := by
  have r4 : rawH4 < 65536 := by
    rw [← h4 []]
    exact (word_of_bytes _ _ (byteAt_lt _ _) (byteAt_lt _ _)).2
  have r5 : rawH5 < 65536 := by
    rw [← h5 []]
    exact (word_of_bytes _ _ (byteAt_lt _ _) (byteAt_lt _ _)).2
  obtain ⟨f1, f2, f3⟩ := H4_field_lt rawH4
  have g5 : rawH5 >>> 4 < 32768 := by
    rw [Nat.shiftRight_eq_div_pow]
    omega
  have e4 : wrap16 (Int.lor (wrap16 (((rawH4 &&& 0x00FF) <<< 4 : Nat) : Int))
      (((rawH4 &&& 0x0F00) >>> 8 : Nat) : Int)) =
      (((rawH4 &&& 0x00FF) <<< 4 ||| (rawH4 &&& 0x0F00) >>> 8 : Nat) : Int) := by
    rw [wrap16_of_lt _ (by omega)]
    exact wrap16_of_lt _ (by omega)
  have e5 : wrap16 ((rawH5 >>> 4 : Nat) : Int) = ((rawH5 >>> 4 : Nat) : Int) :=
    wrap16_of_lt _ g5
  simp only [BME280_read_calibration, BME280_read_register8_eq, BME280_read_register16_ok,
    hok, h4, h5, if_true, ne_eq, not_true_eq_false, if_false, Nat.mod_eq_of_lt r4,
    Nat.mod_eq_of_lt r5, e4, e5, and_self]

/-- Witness for C6: the raw words `0x1234` and `0x5678` decode to
`H4 = 0x342` and `H5 = 0x567`. -/
theorem C6_calibration_H4_H5_decode_witness :
    (BME280_read_calibration demoDriver).1 = BME280_SUCCESS ∧
    (BME280_read_calibration demoDriver).2.dig_H4_val = 0x342 ∧
    (BME280_read_calibration demoDriver).2.dig_H5_val = 0x567 :=
  C6_calibration_H4_H5_decode demoDriver 0x1234 0x5678
    (by intro hist t; simp only [demoDriver, demoDevice]; split <;> rfl)
    (by intro hist; simp [demoDriver, demoDevice, byteAt, BME280_ADDR, dig_H4_reg])
    (by intro hist; simp [demoDriver, demoDevice, byteAt, BME280_ADDR, dig_H5_reg])

/-! ## Result read (`CCS811_read_alg_res`) -/

/-- C7: when the 4-byte read of register `0x02` succeeds with bytes
`b0, b1, b2, b3`, `CCS811_read_alg_res` returns success and afterwards
`CCS811_get_co2` is `b0 * 256 + b1` and `CCS811_get_tvoc` is `b2 * 256 + b3`. -/
theorem C7_read_alg_res_big_endian (s : Driver) (b0 b1 b2 b3 : Nat)
    (hok : (s.device s.log (Txn.memRead CCS811_ADDR ALG_RES_DATA 4)).ok = true)
    (h0 : byteAt (s.device s.log (Txn.memRead CCS811_ADDR ALG_RES_DATA 4)).data 0 = b0)
    (h1 : byteAt (s.device s.log (Txn.memRead CCS811_ADDR ALG_RES_DATA 4)).data 1 = b1)
    (h2 : byteAt (s.device s.log (Txn.memRead CCS811_ADDR ALG_RES_DATA 4)).data 2 = b2)
    (h3 : byteAt (s.device s.log (Txn.memRead CCS811_ADDR ALG_RES_DATA 4)).data 3 = b3) :
    (CCS811_read_alg_res s).1 = CCS811_SUCCESS ∧
    CCS811_get_co2 (CCS811_read_alg_res s).2 = b0 * 256 + b1 ∧
    CCS811_get_tvoc (CCS811_read_alg_res s).2 = b2 * 256 + b3 ∧
    (CCS811_read_alg_res s).2.log = s.log ++ [Txn.memRead 0xB6 0x02 4] := by
  have l0 : b0 < 256 := h0 ▸ byteAt_lt _ _
  have l1 : b1 < 256 := h1 ▸ byteAt_lt _ _
  have l2 : b2 < 256 := h2 ▸ byteAt_lt _ _
  have l3 : b3 < 256 := h3 ▸ byteAt_lt _ _
  have s0 : (b0 <<< 8) % 65536 = b0 <<< 8 := by
    rw [Nat.shiftLeft_eq]
    omega
  have s2 : (b2 <<< 8) % 65536 = b2 <<< 8 := by
    rw [Nat.shiftLeft_eq]
    omega
  simp only [CCS811_read_alg_res, CCS811_read_register_eq, hok, h0, h1, h2, h3, if_true, ne_eq,
    not_true_eq_false, if_false, CCS811_get_co2, CCS811_get_tvoc, s0, s2,
    (word_of_bytes b0 b1 l0 l1).1, (word_of_bytes b2 b3 l2 l3).1]
  simp [CCS811_ADDR, ALG_RES_DATA]

/-- Witness for C7: the result bytes `1, 2, 3, 4` give CO2 = 258 and
tVOC = 772. -/
theorem C7_read_alg_res_big_endian_witness :
    (CCS811_read_alg_res demoDriver).1 = CCS811_SUCCESS ∧
    CCS811_get_co2 (CCS811_read_alg_res demoDriver).2 = 1 * 256 + 2 ∧
    CCS811_get_tvoc (CCS811_read_alg_res demoDriver).2 = 3 * 256 + 4 ∧
    (CCS811_read_alg_res demoDriver).2.log = demoDriver.log ++ [Txn.memRead 0xB6 0x02 4] :=
  C7_read_alg_res_big_endian demoDriver 1 2 3 4 rfl rfl rfl rfl rfl

/-! ## Temperature compensation (`BME280_read_temp`) -/

/-- C8 (the code departs from the claim): with the ADC value `0xFFFFF` and the
calibration `T1 = 0`, `T2 = 32767`, `T3 = 0`, the product
`((adc>>3) - (T1<<1)) * T2` is `4294803457`, above the largest `int32_t`; the
driver forms it in `int32_t` and stores the fine temperature `-80`, whereas the
documented formula in exact arithmetic gives `2097072`. -/
theorem C8_read_temp_product_wraps :
    (BME280_read_temp overflowDriver).2.t_fine = -80 ∧
    fineTemperature 0xFFFFF 0 32767 0 = 2097072 ∧
    (asr 0xFFFFF 3 - 0 * 2) * 32767 = 4294803457 ∧
    (2147483647 : Int) < 4294803457 := by
  decide

/-! ## Humidity compensation (`BME280_read_hum`) -/

/-- C9: whatever the snapshot, the humidity coefficients and the stored fine
temperature, the clamped intermediate of `BME280_read_hum` lies in
[0, 419430400], its value shifted right by 12 lies in [0, 102400], and the
humidity returned lies in [0, 100]. -/
theorem C9_read_hum_clamped (s : Driver) :
    (∀ adc_H : Int, 0 ≤ BME280_hum_var1 adc_H s ∧ BME280_hum_var1 adc_H s ≤ 419430400 ∧
      0 ≤ asr (BME280_hum_var1 adc_H s) 12 ∧ asr (BME280_hum_var1 adc_H s) 12 ≤ 102400) ∧
    0 ≤ (BME280_read_hum s).1 ∧ (BME280_read_hum s).1 ≤ 100 := by
  have key : ∀ (adc_H : Int) (d : Driver), 0 ≤ BME280_hum_var1 adc_H d ∧
      BME280_hum_var1 adc_H d ≤ 419430400 ∧
      0 ≤ asr (BME280_hum_var1 adc_H d) 12 ∧ asr (BME280_hum_var1 adc_H d) 12 ≤ 102400 := by
    intro adc_H d
    obtain ⟨h0, h1⟩ := BME280_hum_var1_bounds adc_H d
    obtain ⟨h2, h3⟩ := asr12_bounds _ h0 h1
    exact ⟨h0, h1, h2, h3⟩
  refine ⟨fun adc_H => key adc_H s, ?_⟩
  simp only [BME280_read_hum, BME280_read_register8_eq]
  generalize hv : asr (BME280_hum_var1 _ _) 12 = v
  have hb : 0 ≤ v ∧ v ≤ 102400 := by
    rw [← hv]
    exact ⟨(key _ _).2.2.1, (key _ _).2.2.2⟩
  have c0 : (0 : ℚ) ≤ (v : ℚ) := by exact_mod_cast hb.1
  have c1 : (v : ℚ) ≤ 102400 := by exact_mod_cast hb.2
  constructor
  · positivity
  · rw [div_le_iff₀ (by norm_num)]
    linarith

/-! ## Bring-up of the gas sensor (`CCS811_init`) -/

/-- C10: on a device where every transaction succeeds, the identity register
reads `0x81` and every status read has bit 0 clear and bit 4 set,
`CCS811_init` returns `CCS811_SUCCESS` at the first identity probe, having
issued exactly: the identity read (`0x20`), the reset key
`0x11, 0xE5, 0x72, 0x8A` written to `0xFF`, two status reads, the raw byte
`0xF4`, the read of register `0x01`, the write to `0x01` of the value read with
its mode field (bits 4-6) replaced by 1, and a last status read. -/
theorem C10_init_bring_up_sequence (s : Driver) (fuel : Nat)
    (hok : ∀ hist t, (s.device hist t).ok = true)
    (hid : ∀ hist, byteAt (s.device hist (Txn.memRead CCS811_ADDR HW_ID 1)).data 0 = 0x81)
    (herr : ∀ hist,
      byteAt (s.device hist (Txn.memRead CCS811_ADDR STATUS_REG 1)).data 0 &&& 0x01 = 0)
    (hval : ∀ hist,
      (byteAt (s.device hist (Txn.memRead CCS811_ADDR STATUS_REG 1)).data 0 >>> 4) &&& 0x01
        = 1) :
    ∃ r, r = byteAt (s.device (s.log ++ [Txn.memRead 0xB6 0x20 1,
          Txn.memWrite 0xB6 0xFF [0x11, 0xE5, 0x72, 0x8A], Txn.memRead 0xB6 0x00 1,
          Txn.memRead 0xB6 0x00 1, Txn.masterTransmit 0xB6 [0xF4]])
          (Txn.memRead 0xB6 0x01 1)).data 0 ∧
      CCS811_init (fuel + 1) s = some (CCS811_SUCCESS, { s with log := s.log ++
        [Txn.memRead 0xB6 0x20 1,
         Txn.memWrite 0xB6 0xFF [0x11, 0xE5, 0x72, 0x8A],
         Txn.memRead 0xB6 0x00 1,
         Txn.memRead 0xB6 0x00 1,
         Txn.masterTransmit 0xB6 [0xF4],
         Txn.memRead 0xB6 0x01 1,
         Txn.memWrite 0xB6 0x01 [(r &&& (0xFF ^^^ 0x70)) ||| (1 <<< 4)],
         Txn.memRead 0xB6 0x00 1] }) ∧
      (((r &&& (0xFF ^^^ 0x70)) ||| (1 <<< 4)) >>> 4) &&& 7 = 1 ∧
      ((r &&& (0xFF ^^^ 0x70)) ||| (1 <<< 4)) &&& 0x8F = r &&& 0x8F := by
  refine ⟨_, rfl, ?_⟩
  obtain ⟨e, b1, b2⟩ := mode_byte_all 1 (by decide)
    (byteAt (s.device (s.log ++ [Txn.memRead 0xB6 0x20 1,
          Txn.memWrite 0xB6 0xFF [0x11, 0xE5, 0x72, 0x8A], Txn.memRead 0xB6 0x00 1,
          Txn.memRead 0xB6 0x00 1, Txn.masterTransmit 0xB6 [0xF4]])
          (Txn.memRead 0xB6 0x01 1)).data 0) (byteAt_lt _ _)
  refine ⟨?_, b1, b2⟩
  simp [CCS811_ADDR, HW_ID, STATUS_REG] at hid herr hval
  simp [CCS811_init, HAL_I2C_Mem_Read, CCS811_reset, CCS811_read_status_error,
    CCS811_read_app_valid, CCS811_app_start, HAL_I2C_Master_Transmit, CCS811_write_mode,
    CCS811_read_register_eq, CCS811_write_register_eq, hok, CCS811_ADDR, STATUS_REG, MEAS_MODE,
    SW_RESET, APP_START, hid, herr, hval]
  simpa using e

/-- Witness for C10: bring-up on the demo device (identity `0x81`, status
`0x10`, measurement mode register `0b10000001`) writes `0b10010001`. -/
theorem C10_init_bring_up_sequence_witness :
    CCS811_init 1 demoDriver = some (CCS811_SUCCESS, { demoDriver with log :=
      [Txn.memRead 0xB6 0x20 1,
       Txn.memWrite 0xB6 0xFF [0x11, 0xE5, 0x72, 0x8A],
       Txn.memRead 0xB6 0x00 1,
       Txn.memRead 0xB6 0x00 1,
       Txn.masterTransmit 0xB6 [0xF4],
       Txn.memRead 0xB6 0x01 1,
       Txn.memWrite 0xB6 0x01 [0b10010001],
       Txn.memRead 0xB6 0x00 1] }) := by
  obtain ⟨r, hr, h, _⟩ := C10_init_bring_up_sequence demoDriver 0
    (by intro hist t; simp only [demoDriver, demoDevice]; split <;> rfl)
    (by intro hist; simp [demoDriver, demoDevice, byteAt, CCS811_ADDR, HW_ID])
    (by intro hist; simp [demoDriver, demoDevice, byteAt, CCS811_ADDR, STATUS_REG])
    (by intro hist; simp [demoDriver, demoDevice, byteAt, CCS811_ADDR, STATUS_REG])
  have hr2 : r = 0b10000001 := by
    rw [hr]
    simp [demoDriver, demoDevice, byteAt]
  subst hr2
  exact h

/-! ## Auxiliary lemmas for the climate-sensor configuration -/

theorem BME280_write_register_eq (s : Driver) (reg : Nat) (buffer : List Nat) :
    BME280_write_register s reg buffer =
      (if (s.device s.log (Txn.memWrite BME280_ADDR reg buffer)).ok = true
        then BME280_SUCCESS else BME280_I2C_ERROR,
       { s with log := s.log ++ [Txn.memWrite BME280_ADDR reg buffer] }) := by
  simp only [BME280_write_register, HAL_I2C_Mem_Write]
  cases (s.device s.log (Txn.memWrite BME280_ADDR reg buffer)).ok <;> rfl

theorem BME280_read_register16_eq (s : Driver) (reg : Nat) :
    BME280_read_register16 s reg =
      (if (s.device s.log (Txn.memRead BME280_ADDR reg 2)).ok = true
        then BME280_SUCCESS else BME280_I2C_ERROR,
       if (s.device s.log (Txn.memRead BME280_ADDR reg 2)).ok = true
        then ((byteAt (s.device s.log (Txn.memRead BME280_ADDR reg 2)).data 1 <<< 8) |||
          byteAt (s.device s.log (Txn.memRead BME280_ADDR reg 2)).data 0) % 65536
        else 0,
       { s with log := s.log ++ [Txn.memRead BME280_ADDR reg 2] }) := by
  simp only [BME280_read_register16, HAL_I2C_Mem_Read]
  cases (s.device s.log (Txn.memRead BME280_ADDR reg 2)).ok <;> rfl

set_option maxRecDepth 100000 in
theorem climate_mode_byte_all :
    ∀ m < 4, ∀ r < 256,
      ((r &&& 0xFC) ||| m) % 256 = (r &&& 0xFC) ||| m ∧
      ((r &&& 0xFC) ||| m) &&& 0xFC = r &&& 0xFC ∧
      ((r &&& 0xFC) ||| m) &&& 0x03 = m := by
  decide

set_option maxRecDepth 100000 in
theorem low_two_bits_le : ∀ r < 256, r &&& 0x03 ≤ 3 := by
  decide

theorem registerFileDevice_ok (init : Nat → Nat → Nat) (hist : List Txn) (t : Txn) :
    (registerFileDevice init hist t).ok = true := by
  unfold registerFileDevice
  split <;> rfl

theorem registerFileDevice_read_byte (init : Nat → Nat → Nat) (hist : List Txn)
    (dev reg : Nat) :
    byteAt (registerFileDevice init hist (Txn.memRead dev reg 1)).data 0 =
      regFile init hist dev reg % 256 := by
  simp [registerFileDevice, byteAt, List.range_succ]

theorem regFile_append_read (init : Nat → Nat → Nat) (hist : List Txn) (dev reg size : Nat) :
    regFile init (hist ++ [Txn.memRead dev reg size]) = regFile init hist := by
  simp [regFile, regStep]

theorem regFile_append_write_byte (init : Nat → Nat → Nat) (hist : List Txn)
    (dev reg b d r : Nat) :
    regFile init (hist ++ [Txn.memWrite dev reg [b]]) d r =
      if d = dev ∧ r = reg then b else regFile init hist d r := by
  simp only [regFile, List.foldl_append, List.foldl_cons, List.foldl_nil, regStep, regWrite,
    List.length_singleton]
  by_cases h : d = dev ∧ r = reg
  · obtain ⟨h1, h2⟩ := h
    subst h1 h2
    simp
  · have h2 : ¬ (d = dev ∧ reg ≤ r ∧ r < reg + 1) := by
      intro hc
      exact h ⟨hc.1, by omega⟩
    rw [if_neg h, if_neg h2]

/-! ## Bring-up of the climate sensor (`BME280_init`): identity check -/

/-- C12: in `BME280_init`, when the read of the identity register succeeds
with a value other than `0x60` the result is `BME280_ID_ERR` and the identity
read is the only transaction issued; when that read fails the result is
`BME280_I2C_ERROR`, again after that single transaction; and `BME280_ID_ERR`,
`BME280_I2C_ERROR` and `BME280_ERROR` are pairwise distinct. -/
theorem C12_init_identity_errors (s : Driver) :
    ((s.device s.log (Txn.memRead BME280_ADDR ID_REG 1)).ok = true →
      byteAt (s.device s.log (Txn.memRead BME280_ADDR ID_REG 1)).data 0 ≠ 0x60 →
      BME280_init s = (BME280_ID_ERR, { s with log := s.log ++ [Txn.memRead 0xEE 0xD0 1] })) ∧
    ((s.device s.log (Txn.memRead BME280_ADDR ID_REG 1)).ok = false →
      BME280_init s =
        (BME280_I2C_ERROR, { s with log := s.log ++ [Txn.memRead 0xEE 0xD0 1] })) ∧
    BME280_ID_ERR ≠ BME280_I2C_ERROR ∧ BME280_ID_ERR ≠ BME280_ERROR ∧
    BME280_I2C_ERROR ≠ BME280_ERROR := by
  refine ⟨?_, ?_, by decide, by decide, by decide⟩
  · intro hok hid
    unfold BME280_init
    rw [BME280_read_register8_eq, if_pos hok]
    dsimp only
    rw [if_neg (not_not.mpr rfl), if_pos hid]
    rfl
  · intro hok
    have hnot : ¬ ((s.device s.log (Txn.memRead BME280_ADDR ID_REG 1)).ok = true) := by
      rw [hok]
      decide
    unfold BME280_init
    rw [BME280_read_register8_eq, if_neg hnot]
    dsimp only
    rw [if_pos (by decide)]
    rfl

/-- Witness for C12: the demo device answers the identity read with `0x00`,
the dead device fails it. -/
theorem C12_init_identity_errors_witness :
    BME280_init demoDriver =
      (BME280_ID_ERR, { demoDriver with log := demoDriver.log ++ [Txn.memRead 0xEE 0xD0 1] }) ∧
    BME280_init deadDriver =
      (BME280_I2C_ERROR, { deadDriver with log := deadDriver.log ++ [Txn.memRead 0xEE 0xD0 1] }) :=
  ⟨(C12_init_identity_errors demoDriver).1 rfl (by decide),
   (C12_init_identity_errors deadDriver).2.1 rfl⟩

/-! ## Mode of the climate sensor (`BME280_set_mode`, `BME280_get_mode`) -/

/-- C13: every mode value above 3 makes `BME280_set_mode` return
`BME280_ERROR` with the driver untouched, so neither the read nor the write of
the measurement-control register is issued. -/
theorem C13_set_mode_rejects_above_three (s : Driver) (m : Nat) (hm : 3 < m) :
    BME280_set_mode s m = (BME280_ERROR, s) := by
  simp only [BME280_set_mode, gt_iff_lt, if_pos hm]

/-- Witness for C13: mode 4. -/
theorem C13_set_mode_rejects_above_three_witness :
    BME280_set_mode demoDriver 4 = (BME280_ERROR, demoDriver) :=
  C13_set_mode_rejects_above_three demoDriver 4 (by decide)

/-- C14: for every mode `m` in 0..3, (1) when the read of register `0xF4`
returns `r` and both transactions succeed, `BME280_set_mode` returns success
after exactly that read and the write of the byte `(r AND 0xFC) OR m` to
`0xF4`, whose bits 2-7 are those of `r` and whose bits 0-1 are `m`; (2) on a
register-file device `BME280_get_mode` called next returns `m`; (3)
`BME280_get_mode` always returns a value in 0..3. -/
theorem C14_set_mode_get_mode_round_trip (s : Driver) (m : Nat) (hm : m ≤ 3) :
    (∀ r, (s.device s.log (Txn.memRead BME280_ADDR CTRL_MEAS 1)).ok = true →
      byteAt (s.device s.log (Txn.memRead BME280_ADDR CTRL_MEAS 1)).data 0 = r →
      (s.device (s.log ++ [Txn.memRead BME280_ADDR CTRL_MEAS 1])
        (Txn.memWrite BME280_ADDR CTRL_MEAS [(r &&& 0xFC) ||| m])).ok = true →
      BME280_set_mode s m = (BME280_SUCCESS, { s with log := s.log ++
        [Txn.memRead 0xEE 0xF4 1, Txn.memWrite 0xEE 0xF4 [(r &&& 0xFC) ||| m]] }) ∧
      ((r &&& 0xFC) ||| m) &&& 0xFC = r &&& 0xFC ∧ ((r &&& 0xFC) ||| m) &&& 0x03 = m) ∧
    (∀ init, s.device = registerFileDevice init →
      (BME280_set_mode s m).1 = BME280_SUCCESS ∧
      (BME280_get_mode (BME280_set_mode s m).2).1 = m) ∧
    (BME280_get_mode s).1 ≤ 3 := by
  have hm3 : ¬ (m > 3) := by omega
  refine ⟨?_, ?_, ?_⟩
  · intro r hread hr hwrite
    have hr256 : r < 256 := hr ▸ byteAt_lt _ _
    obtain ⟨e, b1, b2⟩ := climate_mode_byte_all m (by omega) r hr256
    refine ⟨?_, b1, b2⟩
    simp only [BME280_set_mode, if_neg hm3, BME280_read_register8_eq, BME280_write_register_eq,
      hread, hr, e, hwrite, if_true, ne_eq, not_true_eq_false, if_false]
    simp [BME280_ADDR, CTRL_MEAS]
  · intro init hdev
    obtain ⟨e, _, b2⟩ := climate_mode_byte_all m (by omega)
      (regFile init s.log BME280_ADDR CTRL_MEAS % 256) (Nat.mod_lt _ (by decide))
    simp only [BME280_set_mode, if_neg hm3, BME280_get_mode, BME280_read_register8_eq,
      BME280_write_register_eq, hdev, registerFileDevice_ok, registerFileDevice_read_byte,
      if_true, ne_eq, not_true_eq_false, if_false, e, regFile_append_write_byte,
      regFile_append_read, and_self, Nat.mod_eq_of_lt
        (Nat.lt_of_le_of_lt (Nat.le_of_eq e.symm) (Nat.mod_lt _ (by decide : 0 < 256)))]
    exact ⟨trivial, b2⟩
  · simp only [BME280_get_mode, BME280_read_register8_eq]
    exact low_two_bits_le _ (byteAt_lt _ _)

/-- Witness for C14: mode 2 on the register file whose measurement-control
register holds `0xFF`; the byte written is `0xFE` and the mode read back is
2. -/
theorem C14_set_mode_get_mode_round_trip_witness :
    BME280_set_mode registerFileDriver 2 = (BME280_SUCCESS, { registerFileDriver with
      log := registerFileDriver.log ++
        [Txn.memRead 0xEE 0xF4 1, Txn.memWrite 0xEE 0xF4 [0xFE]] }) ∧
    (BME280_get_mode (BME280_set_mode registerFileDriver 2).2).1 = 2 :=
  ⟨((C14_set_mode_get_mode_round_trip registerFileDriver 2 (by decide)).1 0xFF rfl
      (by decide) rfl).1,
   ((C14_set_mode_get_mode_round_trip registerFileDriver 2 (by decide)).2.1 _ rfl).2⟩

/-! ## Equations for the configuration operations -/

theorem BME280_config_eq (s : Driver) :
    BME280_config s =
      if (s.device s.log (Txn.memRead BME280_ADDR CONFIG_REG 1)).ok = true then
        BME280_write_register
          { s with log := s.log ++ [Txn.memRead BME280_ADDR CONFIG_REG 1] } CONFIG_REG
          [((byteAt (s.device s.log (Txn.memRead BME280_ADDR CONFIG_REG 1)).data 0 &&&
            0b00000010) ||| std_cnf) % 256]
      else
        (BME280_I2C_ERROR, { s with log := s.log ++ [Txn.memRead BME280_ADDR CONFIG_REG 1] }) := by
  unfold BME280_config
  rw [BME280_read_register8_eq]
  dsimp only
  cases (s.device s.log (Txn.memRead BME280_ADDR CONFIG_REG 1)).ok <;> rfl

theorem BME280_set_mode_eq (s : Driver) (mode : Nat) (hm : mode ≤ 3) :
    BME280_set_mode s mode =
      if (s.device s.log (Txn.memRead BME280_ADDR CTRL_MEAS 1)).ok = true then
        BME280_write_register
          { s with log := s.log ++ [Txn.memRead BME280_ADDR CTRL_MEAS 1] } CTRL_MEAS
          [((byteAt (s.device s.log (Txn.memRead BME280_ADDR CTRL_MEAS 1)).data 0 &&& 0xFC) |||
            mode) % 256]
      else
        (BME280_I2C_ERROR, { s with log := s.log ++ [Txn.memRead BME280_ADDR CTRL_MEAS 1] }) := by
  have hm3 : ¬ (mode > 3) := by omega
  unfold BME280_set_mode
  rw [if_neg hm3, BME280_read_register8_eq]
  dsimp only
  cases (s.device s.log (Txn.memRead BME280_ADDR CTRL_MEAS 1)).ok <;> rfl

theorem BME280_set_hum_os_eq (s : Driver) :
    BME280_set_hum_os s =
      (if (s.device
            (s.log ++ [Txn.memRead BME280_ADDR CTRL_HUM 1] ++
              [Txn.memWrite BME280_ADDR CTRL_HUM
                [((byteAt (s.device s.log (Txn.memRead BME280_ADDR CTRL_HUM 1)).data 0 &&&
                  0b11111000) ||| std_hum) % 256]])
            (Txn.memRead BME280_ADDR CTRL_HUM 1)).ok = true
        then BME280_SUCCESS else BME280_I2C_ERROR,
       { s with log := s.log ++ [Txn.memRead BME280_ADDR CTRL_HUM 1] ++
          [Txn.memWrite BME280_ADDR CTRL_HUM
            [((byteAt (s.device s.log (Txn.memRead BME280_ADDR CTRL_HUM 1)).data 0 &&&
              0b11111000) ||| std_hum) % 256]] ++
          [Txn.memRead BME280_ADDR CTRL_HUM 1] }) := by
  unfold BME280_set_hum_os
  rw [BME280_read_register8_eq]
  dsimp only
  rw [BME280_write_register_eq]
  dsimp only
  rw [BME280_read_register8_eq]

theorem BME280_set_temp_os_eq (s : Driver) :
    BME280_set_temp_os s =
      BME280_write_register
        { s with log := s.log ++ [Txn.memRead BME280_ADDR CTRL_MEAS 1] } CTRL_MEAS
        [((byteAt (s.device s.log (Txn.memRead BME280_ADDR CTRL_MEAS 1)).data 0 &&&
          0b00011111) ||| std_temp) % 256] := by
  unfold BME280_set_temp_os
  rw [BME280_read_register8_eq]

theorem BME280_read_calibration_all_ok (s : Driver)
    (hok : ∀ hist t, (s.device hist t).ok = true) :
    (BME280_read_calibration s).1 = BME280_SUCCESS ∧
    (BME280_read_calibration s).2.device = s.device ∧
    (BME280_read_calibration s).2.log = s.log ++
      [Txn.memRead BME280_ADDR dig_T1_reg 2, Txn.memRead BME280_ADDR dig_T2_reg 2,
       Txn.memRead BME280_ADDR dig_T3_reg 2, Txn.memRead BME280_ADDR dig_H1_reg 1,
       Txn.memRead BME280_ADDR dig_H2_reg 2, Txn.memRead BME280_ADDR dig_H3_reg 1,
       Txn.memRead BME280_ADDR dig_H4_reg 2, Txn.memRead BME280_ADDR dig_H5_reg 2,
       Txn.memRead BME280_ADDR dig_H6_reg 1] := by
  simp only [BME280_read_calibration, BME280_read_register8_eq, BME280_read_register16_ok,
    hok, if_true, ne_eq, not_true_eq_false, if_false, List.append_assoc, List.singleton_append,
    List.cons_append, List.nil_append, and_self]

theorem regFile_append_reads (init : Nat → Nat → Nat) (hist l : List Txn)
    (hl : ∀ t ∈ l, ∃ dev reg size, t = Txn.memRead dev reg size) :
    regFile init (hist ++ l) = regFile init hist := by
  induction l generalizing hist with
  | nil => simp
  | cons t l ih =>
    obtain ⟨dev, reg, size, ht⟩ := hl t (List.mem_cons_self _ _)
    have h2 : hist ++ t :: l = (hist ++ [t]) ++ l := by simp
    rw [h2, ih _ (fun u hu => hl u (List.mem_cons_of_mem _ hu)), ht, regFile_append_read]

set_option maxRecDepth 100000 in
theorem init_bytes_all :
    ∀ c < 256, ((c &&& 0b00000010) ||| 0x00) % 256 = c &&& 0x02 ∧
      ((c &&& 0b11111000) ||| 0x01) % 256 = (c &&& 0xF8) ||| 0x01 ∧
      ((((((c &&& 0xFC) ||| 0) % 256) % 256 &&& 0b00011111) ||| 0x20) % 256 % 256 &&& 0xFC ||| 3)
        % 256 = (c &&& 0x1C) ||| 0x23 := by
  decide

/-! ## Bring-up of the climate sensor (`BME280_init`): register contents -/

/-- C11: on a register-file device whose identity register reads `0x60`,
`BME280_init` returns `BME280_SUCCESS`, and with `c`, `h`, `m` the bytes held
before the call by the config (`0xF5`), humidity-control (`0xF2`) and
measurement-control (`0xF4`) registers, the register file afterwards holds
`c AND 0x02`, `(h AND 0xF8) OR 0x01` and `(m AND 0x1C) OR 0x23` there. -/
theorem C11_init_register_contents (init : Nat → Nat → Nat) (s : Driver) (c h m : Nat)
    (hdev : s.device = registerFileDevice init)
    (hid : regFile init s.log BME280_ADDR ID_REG % 256 = 0x60)
    (hc : regFile init s.log BME280_ADDR CONFIG_REG % 256 = c)
    (hh : regFile init s.log BME280_ADDR CTRL_HUM % 256 = h)
    (hm : regFile init s.log BME280_ADDR CTRL_MEAS % 256 = m) :
    (BME280_init s).1 = BME280_SUCCESS ∧
    (BME280_init s).2.device = s.device ∧
    regFile init (BME280_init s).2.log 0xEE 0xF5 = c &&& 0x02 ∧
    regFile init (BME280_init s).2.log 0xEE 0xF2 = (h &&& 0xF8) ||| 0x01 ∧
    regFile init (BME280_init s).2.log 0xEE 0xF4 = (m &&& 0x1C) ||| 0x23 := by
  have hokid : (s.device s.log (Txn.memRead BME280_ADDR ID_REG 1)).ok = true := by
    rw [hdev]
    exact registerFileDevice_ok _ _ _
  have hidb : ¬ (byteAt (s.device s.log (Txn.memRead BME280_ADDR ID_REG 1)).data 0 ≠ 0x60) := by
    rw [hdev, registerFileDevice_read_byte, hid]
    decide
  obtain ⟨k1, k2, k3⟩ := BME280_read_calibration_all_ok
    { s with log := s.log ++ [Txn.memRead BME280_ADDR ID_REG 1] }
    (by intro hist t; show (s.device hist t).ok =
      true; rw [hdev]; exact registerFileDevice_ok _ _ _)
  unfold BME280_init
  rw [BME280_read_register8_eq, if_pos hokid]
  dsimp only
  rw [if_neg (not_not.mpr rfl), if_neg hidb]
  generalize BME280_read_calibration
    { s with log := s.log ++ [Txn.memRead BME280_ADDR ID_REG 1] } = r2 at k1 k2 k3 ⊢
  obtain ⟨st2, s2⟩ := r2
  simp only at k1 k2 k3
  subst k1
  rw [if_neg (not_not.mpr rfl)]
  have hd2 : s2.device = registerFileDevice init := k2.trans hdev
  have sm0 := fun x => BME280_set_mode_eq x 0 (by decide)
  have sm3 := fun x => BME280_set_mode_eq x 3 (by decide)
  simp only [BME280_config_eq, sm0, sm3, BME280_set_hum_os_eq, BME280_set_temp_os_eq,
    BME280_write_register_eq, hd2, registerFileDevice_ok, registerFileDevice_read_byte,
    if_true, ne_eq, not_true_eq_false, if_false, regFile_append_write_byte,
    regFile_append_read]
  have hreg : regFile init s2.log = regFile init s.log := by
    rw [k3, regFile_append_reads _ _ _ (by
      intro t ht
      simp only [List.mem_cons, List.mem_singleton, List.not_mem_nil, or_false] at ht
      rcases ht with h | h | h | h | h | h | h | h | h <;> exact ⟨_, _, _, h⟩),
      regFile_append_read]
  have hc8 : c < 256 := hc ▸ Nat.mod_lt _ (by decide)
  have hh8 : h < 256 := hh ▸ Nat.mod_lt _ (by decide)
  have hm8 : m < 256 := hm ▸ Nat.mod_lt _ (by decide)
  rw [hreg]
  simp only [BME280_ADDR, CTRL_MEAS, CTRL_HUM, CONFIG_REG, std_cnf, std_hum, std_temp] at hc hh hm ⊢
  simp only [hdev, Nat.reduceEqDiff, true_and, and_self, and_false, if_true, if_false, hc, hh, hm]
  exact ⟨(init_bytes_all c hc8).1, (init_bytes_all h hh8).2.1, (init_bytes_all m hm8).2.2⟩

/-- Witness for C11: the register file whose registers all hold `0xFF`
except the identity register (`0x60`); afterwards config holds `0x02`,
humidity-control `0xF9` and measurement-control `0x3F`. -/
theorem C11_init_register_contents_witness :
    (BME280_init registerFileDriver).1 = BME280_SUCCESS ∧
    (BME280_init registerFileDriver).2.device = registerFileDriver.device ∧
    regFile (fun d r => if d = 0xEE ∧ r = 0xD0 then 0x60 else 0xFF)
      (BME280_init registerFileDriver).2.log 0xEE 0xF5 = 0xFF &&& 0x02 ∧
    regFile (fun d r => if d = 0xEE ∧ r = 0xD0 then 0x60 else 0xFF)
      (BME280_init registerFileDriver).2.log 0xEE 0xF2 = (0xFF &&& 0xF8) ||| 0x01 ∧
    regFile (fun d r => if d = 0xEE ∧ r = 0xD0 then 0x60 else 0xFF)
      (BME280_init registerFileDriver).2.log 0xEE 0xF4 = (0xFF &&& 0x1C) ||| 0x23 :=
  C11_init_register_contents (fun d r => if d = 0xEE ∧ r = 0xD0 then 0x60 else 0xFF)
    registerFileDriver 0xFF 0xFF 0xFF rfl (by decide) (by decide) (by decide) (by decide)
/-! ## Failed calibration (`BME280_read_calibration`) -/

/-- C15 (as stated, refuted): on a device where the read of the `T1` word
succeeds with `0x1234` and the next read fails, `BME280_read_calibration`
returns `BME280_I2C_ERROR` after two reads and `T1` has changed from 0 to
`0x1234`: the calibration set is left partially updated. -/
theorem C15_failed_calibration_changes_T1 :
    (BME280_read_calibration calibFailDriver).1 = BME280_I2C_ERROR ∧
    (BME280_read_calibration calibFailDriver).2.log =
      [Txn.memRead 0xEE 0x88 2, Txn.memRead 0xEE 0x8A 2] ∧
    (calibFailDevice [Txn.memRead 0xEE 0x88 2] (Txn.memRead 0xEE 0x8A 2)).ok = false ∧
    calibFailDriver.dig_T1_val = 0 ∧
    (BME280_read_calibration calibFailDriver).2.dig_T1_val = 0x1234 ∧
    (BME280_read_calibration calibFailDriver).2.dig_T1_val ≠ calibFailDriver.dig_T1_val := by
  decide

theorem status_ne_success_iff (p : Prop) [Decidable p] :
    ((if p then BME280_SUCCESS else BME280_I2C_ERROR) ≠ BME280_SUCCESS) ↔ ¬ p := by
  by_cases h : p <;> simp [h]

set_option maxHeartbeats 4000000 in
theorem BME280_read_calibration_first_failure (s : Driver) (k : Nat) (hk : k < 9)
    (hprev : ∀ j < k, calibrationReadOk s j = true) (hfail : calibrationReadOk s k = false) :
    (BME280_read_calibration s).2.device = s.device ∧
    (BME280_read_calibration s).2.log = s.log ++ calibrationReads.take (k + 1) ∧
    (BME280_read_calibration s).1 = BME280_I2C_ERROR ∧
    (BME280_read_calibration s).2.dig_H4_val = s.dig_H4_val ∧
    (BME280_read_calibration s).2.dig_H5_val = s.dig_H5_val ∧
    (k ≤ 0 → (BME280_read_calibration s).2.dig_T1_val = s.dig_T1_val) ∧
    (0 < k → (BME280_read_calibration s).2.dig_T1_val = calibrationWord s 0) ∧
    (k ≤ 1 → (BME280_read_calibration s).2.dig_T2_val = s.dig_T2_val) ∧
    (1 < k → (BME280_read_calibration s).2.dig_T2_val = wrap16 (calibrationWord s 1)) ∧
    (k ≤ 2 → (BME280_read_calibration s).2.dig_T3_val = s.dig_T3_val) ∧
    (2 < k → (BME280_read_calibration s).2.dig_T3_val = wrap16 (calibrationWord s 2)) ∧
    (k < 3 → (BME280_read_calibration s).2.dig_H1_val = s.dig_H1_val) ∧
    (3 < k → (BME280_read_calibration s).2.dig_H1_val = calibrationByte s 3) ∧
    (k ≤ 4 → (BME280_read_calibration s).2.dig_H2_val = s.dig_H2_val) ∧
    (4 < k → (BME280_read_calibration s).2.dig_H2_val = wrap16 (calibrationWord s 4)) ∧
    (k < 5 → (BME280_read_calibration s).2.dig_H3_val = s.dig_H3_val) ∧
    (5 < k → (BME280_read_calibration s).2.dig_H3_val = calibrationByte s 5) ∧
    (k < 8 → (BME280_read_calibration s).2.dig_H6_val = s.dig_H6_val) := by
  have h0 := hprev 0
  have h1 := hprev 1
  have h2 := hprev 2
  have h3 := hprev 3
  have h4 := hprev 4
  have h5 := hprev 5
  have h6 := hprev 6
  have h7 := hprev 7
  clear hprev
  interval_cases k
  all_goals simp [calibrationReadOk, calibrationReply, calibrationReads] at h0 h1 h2 h3 h4 h5 h6 h7 hfail
  all_goals simp only [BME280_read_calibration, BME280_read_register16_eq,
    BME280_read_register8_eq, List.append_assoc, List.singleton_append, List.cons_append,
    List.nil_append, h0, h1, h2, h3, h4, h5, h6, h7, hfail, if_true, if_false, ne_eq,
    not_true_eq_false, Bool.false_eq_true, reduceCtorEq, not_false_eq_true, calibrationWord,
    calibrationByte, calibrationReply, calibrationReads]
  all_goals simp

/-- C15 (amended): when calibration read number `k` (counted from 0) is the
first to fail, `BME280_read_calibration` returns `BME280_I2C_ERROR`; `H4` and
`H5` are unchanged, every coefficient whose read comes after the failing one
is unchanged, and so is a 16-bit coefficient (`T1`, `T2`, `T3`, `H2`) whose
own read is the failing one; every coefficient whose read succeeded before the
failure holds the value just read. -/
theorem C15_failed_calibration_partial_update (s : Driver) (k : Nat) (hk : k < 9)
    (hprev : ∀ j < k, calibrationReadOk s j = true) (hfail : calibrationReadOk s k = false) :
    (BME280_read_calibration s).1 = BME280_I2C_ERROR ∧
    (BME280_read_calibration s).2.dig_H4_val = s.dig_H4_val ∧
    (BME280_read_calibration s).2.dig_H5_val = s.dig_H5_val ∧
    (k ≤ 0 → (BME280_read_calibration s).2.dig_T1_val = s.dig_T1_val) ∧
    (0 < k → (BME280_read_calibration s).2.dig_T1_val = calibrationWord s 0) ∧
    (k ≤ 1 → (BME280_read_calibration s).2.dig_T2_val = s.dig_T2_val) ∧
    (1 < k → (BME280_read_calibration s).2.dig_T2_val = wrap16 (calibrationWord s 1)) ∧
    (k ≤ 2 → (BME280_read_calibration s).2.dig_T3_val = s.dig_T3_val) ∧
    (2 < k → (BME280_read_calibration s).2.dig_T3_val = wrap16 (calibrationWord s 2)) ∧
    (k < 3 → (BME280_read_calibration s).2.dig_H1_val = s.dig_H1_val) ∧
    (3 < k → (BME280_read_calibration s).2.dig_H1_val = calibrationByte s 3) ∧
    (k ≤ 4 → (BME280_read_calibration s).2.dig_H2_val = s.dig_H2_val) ∧
    (4 < k → (BME280_read_calibration s).2.dig_H2_val = wrap16 (calibrationWord s 4)) ∧
    (k < 5 → (BME280_read_calibration s).2.dig_H3_val = s.dig_H3_val) ∧
    (5 < k → (BME280_read_calibration s).2.dig_H3_val = calibrationByte s 5) ∧
    (k < 8 → (BME280_read_calibration s).2.dig_H6_val = s.dig_H6_val) :=
  (BME280_read_calibration_first_failure s k hk hprev hfail).2.2

/-- Witness for C15 (amended): on `calibFailDriver` the read number 1 is the
first to fail. -/
theorem C15_failed_calibration_partial_update_witness :
    (BME280_read_calibration calibFailDriver).1 = BME280_I2C_ERROR ∧
    (BME280_read_calibration calibFailDriver).2.dig_H4_val = calibFailDriver.dig_H4_val ∧
    (BME280_read_calibration calibFailDriver).2.dig_H5_val = calibFailDriver.dig_H5_val ∧
    (1 ≤ 0 → (BME280_read_calibration calibFailDriver).2.dig_T1_val = calibFailDriver.dig_T1_val) ∧
    (0 < 1 → (BME280_read_calibration calibFailDriver).2.dig_T1_val =
      calibrationWord calibFailDriver 0) ∧
    (1 ≤ 1 → (BME280_read_calibration calibFailDriver).2.dig_T2_val = calibFailDriver.dig_T2_val) ∧
    (1 < 1 → (BME280_read_calibration calibFailDriver).2.dig_T2_val =
      wrap16 (calibrationWord calibFailDriver 1)) ∧
    (1 ≤ 2 → (BME280_read_calibration calibFailDriver).2.dig_T3_val = calibFailDriver.dig_T3_val) ∧
    (2 < 1 → (BME280_read_calibration calibFailDriver).2.dig_T3_val =
      wrap16 (calibrationWord calibFailDriver 2)) ∧
    (1 < 3 → (BME280_read_calibration calibFailDriver).2.dig_H1_val = calibFailDriver.dig_H1_val) ∧
    (3 < 1 → (BME280_read_calibration calibFailDriver).2.dig_H1_val =
      calibrationByte calibFailDriver 3) ∧
    (1 ≤ 4 → (BME280_read_calibration calibFailDriver).2.dig_H2_val = calibFailDriver.dig_H2_val) ∧
    (4 < 1 → (BME280_read_calibration calibFailDriver).2.dig_H2_val =
      wrap16 (calibrationWord calibFailDriver 4)) ∧
    (1 < 5 → (BME280_read_calibration calibFailDriver).2.dig_H3_val = calibFailDriver.dig_H3_val) ∧
    (5 < 1 → (BME280_read_calibration calibFailDriver).2.dig_H3_val =
      calibrationByte calibFailDriver 5) ∧
    (1 < 8 → (BME280_read_calibration calibFailDriver).2.dig_H6_val = calibFailDriver.dig_H6_val) :=
  C15_failed_calibration_partial_update calibFailDriver 1 (by decide)
    (by intro j hj; interval_cases j; rfl) rfl
/-! ## Failed result read (`CCS811_read_alg_res`) -/

/-- C16: when the 4-byte read of the result register fails,
`CCS811_read_alg_res` returns `CCS811_I2C_ERROR` and `CCS811_get_co2`,
`CCS811_get_tvoc` return what they returned before; and whenever one of the
two values differs after the call, the read has succeeded, the status is
`CCS811_SUCCESS` and both fields hold the big-endian words of that read. -/
theorem C16_read_alg_res_failure_keeps_reading (s : Driver) :
    ((s.device s.log (Txn.memRead CCS811_ADDR ALG_RES_DATA 4)).ok = false →
      (CCS811_read_alg_res s).1 = CCS811_I2C_ERROR ∧
      CCS811_get_co2 (CCS811_read_alg_res s).2 = CCS811_get_co2 s ∧
      CCS811_get_tvoc (CCS811_read_alg_res s).2 = CCS811_get_tvoc s) ∧
    ((CCS811_get_co2 (CCS811_read_alg_res s).2 ≠ CCS811_get_co2 s ∨
      CCS811_get_tvoc (CCS811_read_alg_res s).2 ≠ CCS811_get_tvoc s) →
      (s.device s.log (Txn.memRead CCS811_ADDR ALG_RES_DATA 4)).ok = true ∧
      (CCS811_read_alg_res s).1 = CCS811_SUCCESS ∧
      CCS811_get_co2 (CCS811_read_alg_res s).2 =
        byteAt (s.device s.log (Txn.memRead CCS811_ADDR ALG_RES_DATA 4)).data 0 * 256 +
        byteAt (s.device s.log (Txn.memRead CCS811_ADDR ALG_RES_DATA 4)).data 1 ∧
      CCS811_get_tvoc (CCS811_read_alg_res s).2 =
        byteAt (s.device s.log (Txn.memRead CCS811_ADDR ALG_RES_DATA 4)).data 2 * 256 +
        byteAt (s.device s.log (Txn.memRead CCS811_ADDR ALG_RES_DATA 4)).data 3) := by
  have w01 := word_of_bytes
    (byteAt (s.device s.log (Txn.memRead CCS811_ADDR ALG_RES_DATA 4)).data 0)
    (byteAt (s.device s.log (Txn.memRead CCS811_ADDR ALG_RES_DATA 4)).data 1)
    (byteAt_lt _ _) (byteAt_lt _ _)
  have w23 := word_of_bytes
    (byteAt (s.device s.log (Txn.memRead CCS811_ADDR ALG_RES_DATA 4)).data 2)
    (byteAt (s.device s.log (Txn.memRead CCS811_ADDR ALG_RES_DATA 4)).data 3)
    (byteAt_lt _ _) (byteAt_lt _ _)
  have s0 : ∀ b, b < 256 → (b <<< 8) % 65536 = b <<< 8 := by
    intro b hb
    rw [Nat.shiftLeft_eq]
    omega
  simp only [CCS811_read_alg_res, CCS811_read_register_eq, CCS811_get_co2, CCS811_get_tvoc]
  cases hok : (s.device s.log (Txn.memRead CCS811_ADDR ALG_RES_DATA 4)).ok with
  | false => simp
  | true =>
    simp only [if_true, ne_eq, not_true_eq_false, if_false, s0 _ (byteAt_lt _ _), w01.1, w23.1]
    simp

/-- Witness for C16: on the dead device the read fails and the reading stays
as it was. -/
theorem C16_read_alg_res_failure_keeps_reading_witness :
    (CCS811_read_alg_res deadDriver).1 = CCS811_I2C_ERROR ∧
    CCS811_get_co2 (CCS811_read_alg_res deadDriver).2 = CCS811_get_co2 deadDriver ∧
    CCS811_get_tvoc (CCS811_read_alg_res deadDriver).2 = CCS811_get_tvoc deadDriver :=
  (C16_read_alg_res_failure_keeps_reading deadDriver).1 rfl

/-! ## Bring-up of the gas sensor (`CCS811_init`): failure statuses -/

/-- C17 (as stated, refuted): bring-up on a device whose status register has
the error bit set and bring-up on a device whose status register has the
app-valid bit clear both return `CCS811_ERROR`; the two statuses are equal. -/
theorem C17_same_status_for_both_causes :
    (CCS811_init 1 errorBitDriver).map (fun p => p.1) = some CCS811_ERROR ∧
    (CCS811_init 1 appInvalidDriver).map (fun p => p.1) = some CCS811_ERROR ∧
    (CCS811_init 1 errorBitDriver).map (fun p => p.1) =
      (CCS811_init 1 appInvalidDriver).map (fun p => p.1) := by
  decide

/-- C17 (amended): on a device where every transaction succeeds, the identity
register reads `0x81` and the status register reads `b`, `CCS811_init` returns
`CCS811_ERROR` after the first status read when bit 0 of `b` is set, and the
same `CCS811_ERROR` after the second status read when bit 0 is clear and bit 4
is clear; the two causes differ only in the number of status reads issued. -/
theorem C17_init_error_statuses (s : Driver) (fuel b : Nat)
    (hok : ∀ hist t, (s.device hist t).ok = true)
    (hid : ∀ hist, byteAt (s.device hist (Txn.memRead CCS811_ADDR HW_ID 1)).data 0 = 0x81)
    (hst : ∀ hist, byteAt (s.device hist (Txn.memRead CCS811_ADDR STATUS_REG 1)).data 0 = b) :
    (b &&& 0x01 ≠ 0 →
      CCS811_init (fuel + 1) s = some (CCS811_ERROR, { s with log := s.log ++
        [Txn.memRead 0xB6 0x20 1, Txn.memWrite 0xB6 0xFF [0x11, 0xE5, 0x72, 0x8A],
         Txn.memRead 0xB6 0x00 1] })) ∧
    (b &&& 0x01 = 0 → (b >>> 4) &&& 0x01 ≠ 1 →
      CCS811_init (fuel + 1) s = some (CCS811_ERROR, { s with log := s.log ++
        [Txn.memRead 0xB6 0x20 1, Txn.memWrite 0xB6 0xFF [0x11, 0xE5, 0x72, 0x8A],
         Txn.memRead 0xB6 0x00 1, Txn.memRead 0xB6 0x00 1] })) := by
  simp only [CCS811_ADDR, HW_ID, STATUS_REG] at hid hst
  constructor
  · intro herr
    simp [CCS811_init, HAL_I2C_Mem_Read, CCS811_reset, CCS811_read_status_error,
      CCS811_read_app_valid, CCS811_app_start, HAL_I2C_Master_Transmit, CCS811_write_mode,
      CCS811_read_register_eq, CCS811_write_register_eq, hok, CCS811_ADDR, STATUS_REG,
      MEAS_MODE, SW_RESET, APP_START, hid, hst]
    intro h0
    simp at herr
    omega
  · intro herr hval
    simp [CCS811_init, HAL_I2C_Mem_Read, CCS811_reset, CCS811_read_status_error,
      CCS811_read_app_valid, CCS811_app_start, HAL_I2C_Master_Transmit, CCS811_write_mode,
      CCS811_read_register_eq, CCS811_write_register_eq, hok, CCS811_ADDR, STATUS_REG,
      MEAS_MODE, SW_RESET, APP_START, hid, hst]
    simp at herr hval
    simp [herr, hval]

/-- Witness for C17 (amended): status `0x11` stops at the first status read,
status `0x00` at the second, both with `CCS811_ERROR`. -/
theorem C17_init_error_statuses_witness :
    CCS811_init 1 errorBitDriver = some (CCS811_ERROR, { errorBitDriver with
      log := errorBitDriver.log ++
        [Txn.memRead 0xB6 0x20 1, Txn.memWrite 0xB6 0xFF [0x11, 0xE5, 0x72, 0x8A],
         Txn.memRead 0xB6 0x00 1] }) ∧
    CCS811_init 1 appInvalidDriver = some (CCS811_ERROR, { appInvalidDriver with
      log := appInvalidDriver.log ++
        [Txn.memRead 0xB6 0x20 1, Txn.memWrite 0xB6 0xFF [0x11, 0xE5, 0x72, 0x8A],
         Txn.memRead 0xB6 0x00 1, Txn.memRead 0xB6 0x00 1] }) :=
  ⟨(C17_init_error_statuses errorBitDriver 0 0x11
      (by intro hist t; simp only [errorBitDriver, errorBitDevice]; split <;> rfl)
      (by intro hist; simp [errorBitDriver, errorBitDevice, byteAt, CCS811_ADDR, HW_ID])
      (by intro hist; simp [errorBitDriver, errorBitDevice, byteAt, CCS811_ADDR, STATUS_REG])).1
      (by decide),
   (C17_init_error_statuses appInvalidDriver 0 0x00
      (by intro hist t; simp only [appInvalidDriver, appInvalidDevice]; split <;> rfl)
      (by intro hist; simp [appInvalidDriver, appInvalidDevice, byteAt, CCS811_ADDR, HW_ID])
      (by intro hist; simp [appInvalidDriver, appInvalidDevice, byteAt, CCS811_ADDR,
        STATUS_REG])).2 (by decide) (by decide)⟩
/-! ## Identity probing of the gas sensor (`CCS811_init`): no bound -/

/-- C18 (as stated, refuted): on a device whose identity read always fails,
no number of identity probes makes `CCS811_init` return. -/
theorem C18_dead_device_never_returns :
    ¬ ∃ fuel, (CCS811_init fuel deadDriver).isSome = true := by
  have h : ∀ (fuel : Nat) (s : Driver), s.device = deadDevice → CCS811_init fuel s = none := by
    intro fuel
    induction fuel with
    | zero => intro s _; rfl
    | succ n ih =>
      intro s hs
      simp only [CCS811_init, HAL_I2C_Mem_Read, hs, deadDevice, Bool.not_false, true_or, if_true]
      exact ih _ rfl
  rintro ⟨fuel, hf⟩
  rw [h fuel deadDriver rfl] at hf
  exact absurd hf (by decide)

/-- C18 (amended): on every device whose identity read never yields `0x81`
(each probe fails at the transport or reads another value), `CCS811_init` does
not return, whatever the number of identity probes allowed: the retry loop has
no bound and no identity error is ever reported. -/
theorem C18_init_probes_without_bound (s : Driver) (fuel : Nat)
    (hnever : ∀ hist, ¬ ((s.device hist (Txn.memRead CCS811_ADDR HW_ID 1)).ok = true ∧
      byteAt (s.device hist (Txn.memRead CCS811_ADDR HW_ID 1)).data 0 = 0x81)) :
    CCS811_init fuel s = none := by
  induction fuel generalizing s with
  | zero => rfl
  | succ n ih =>
    have hcond : (!(s.device s.log (Txn.memRead CCS811_ADDR 0x20 1)).ok) = true ∨
        byteAt (s.device s.log (Txn.memRead CCS811_ADDR 0x20 1)).data 0 ≠ 0x81 := by
      have h := hnever s.log
      simp only [HW_ID] at h
      cases hok : (s.device s.log (Txn.memRead CCS811_ADDR 0x20 1)).ok with
      | false => left; rfl
      | true =>
        right
        intro hb
        exact h ⟨hok, hb⟩
    simp only [CCS811_init, HAL_I2C_Mem_Read, if_pos hcond]
    exact ih _ hnever

/-- Witness for C18 (amended): the dead device, 100 probes. -/
theorem C18_init_probes_without_bound_witness :
    CCS811_init 100 deadDriver = none :=
  C18_init_probes_without_bound deadDriver 100
    (by intro hist h; simp [deadDriver, deadDevice] at h)

/-! ## Status reporting of the oversampling setters -/

/-- C19 (the code departs from the claim): on a device where every write
fails and every read succeeds, `BME280_set_hum_os` returns `BME280_SUCCESS`
although its register write failed; on a device where every read fails and
every write succeeds, `BME280_set_temp_os` returns `BME280_SUCCESS` although
its register read failed. -/
theorem C19_oversampling_setters_drop_failures :
    (BME280_set_hum_os writeFailDriver).1 = BME280_SUCCESS ∧
    (BME280_set_hum_os writeFailDriver).2.log =
      [Txn.memRead 0xEE 0xF2 1, Txn.memWrite 0xEE 0xF2 [0x01], Txn.memRead 0xEE 0xF2 1] ∧
    (writeFailDevice [Txn.memRead 0xEE 0xF2 1] (Txn.memWrite 0xEE 0xF2 [0x01])).ok = false ∧
    (BME280_set_temp_os readFailDriver).1 = BME280_SUCCESS ∧
    (readFailDevice [] (Txn.memRead 0xEE 0xF4 1)).ok = false ∧
    (BME280_config readFailDriver).1 = BME280_I2C_ERROR ∧
    (BME280_set_mode readFailDriver 3).1 = BME280_I2C_ERROR := by
  decide

/-! ## Accepted modes of the climate sensor (`BME280_set_mode`) -/

/-- C20 (as stated, refuted): mode 0 is not one of the values 1, 2, 3, yet
`BME280_set_mode` does not return `BME280_ERROR` for it and issues the read and
the write of the measurement-control register. -/
theorem C20_mode_zero_accepted :
    (BME280_set_mode demoDriver 0).1 = BME280_SUCCESS ∧
    (BME280_set_mode demoDriver 0).1 ≠ BME280_ERROR ∧
    (BME280_set_mode demoDriver 0).2.log =
      [Txn.memRead 0xEE 0xF4 1, Txn.memWrite 0xEE 0xF4 [0x00]] := by
  decide

/-- C20 (amended): `BME280_set_mode` accepts exactly the four mode values
0..3: for each of them it passes validation, issues the read of the
measurement-control register and does not return `BME280_ERROR`; for every
other 8-bit mode value it returns `BME280_ERROR` with the driver untouched,
so without a bus transaction. -/
theorem C20_set_mode_accepts_zero_to_three (s : Driver) (m : Nat) (hm8 : m < 256) :
    (m ≤ 3 → (BME280_set_mode s m).1 ≠ BME280_ERROR ∧
      ∃ rest, (BME280_set_mode s m).2.log =
        s.log ++ Txn.memRead BME280_ADDR CTRL_MEAS 1 :: rest) ∧
    (¬ m ≤ 3 → BME280_set_mode s m = (BME280_ERROR, s)) := by
  constructor
  · intro h
    rw [BME280_set_mode_eq s m h, BME280_write_register_eq]
    cases hok : (s.device s.log (Txn.memRead BME280_ADDR CTRL_MEAS 1)).ok with
    | false => exact ⟨by simp, [], by simp⟩
    | true =>
      refine ⟨?_, [Txn.memWrite BME280_ADDR CTRL_MEAS
        [((byteAt (s.device s.log (Txn.memRead BME280_ADDR CTRL_MEAS 1)).data 0 &&& 0xFC) |||
          m) % 256]], by simp⟩
      simp only [if_true]
      split <;> simp
  · intro h
    have h3 : m > 3 := by omega
    simp only [BME280_set_mode, if_pos h3]

/-- Witness for C20 (amended): mode 0 is accepted, mode 4 is rejected. -/
theorem C20_set_mode_accepts_zero_to_three_witness :
    ((BME280_set_mode demoDriver 0).1 ≠ BME280_ERROR ∧
      ∃ rest, (BME280_set_mode demoDriver 0).2.log =
        demoDriver.log ++ Txn.memRead BME280_ADDR CTRL_MEAS 1 :: rest) ∧
    BME280_set_mode demoDriver 4 = (BME280_ERROR, demoDriver) :=
  ⟨(C20_set_mode_accepts_zero_to_three demoDriver 0 (by decide)).1 (by decide),
   (C20_set_mode_accepts_zero_to_three demoDriver 4 (by decide)).2 (by decide)⟩

/-! ## Auxiliary lemmas for the temperature compensation -/

theorem wrap32_of_fits (z : Int) (h : fitsInt32 z) : wrap32 z = z := by
  unfold fitsInt32 at h
  unfold wrap32
  omega

set_option maxRecDepth 100000 in
theorem high_nibble_all : ∀ b < 256, (b >>> 4) &&& 0x0F = b >>> 4 ∧ b >>> 4 < 16 := by
  decide

theorem adcTemperature_eq (buf : List Nat) :
    ((byteAt buf 3 <<< 12) % 4294967296) ||| ((byteAt buf 4 <<< 4) % 4294967296) |||
      ((byteAt buf 5 >>> 4) &&& 0x0F) = adcTemperature buf ∧ adcTemperature buf < 1048576 := by
  have h3 := byteAt_lt buf 3
  have h4 := byteAt_lt buf 4
  obtain ⟨e5, l5⟩ := high_nibble_all (byteAt buf 5) (byteAt_lt buf 5)
  have s3 : byteAt buf 3 <<< 12 < 2 ^ 20 := by
    rw [Nat.shiftLeft_eq]
    omega
  have s4 : byteAt buf 4 <<< 4 < 2 ^ 20 := by
    rw [Nat.shiftLeft_eq]
    omega
  have s5 : byteAt buf 5 >>> 4 < 2 ^ 20 := by omega
  have m3 : (byteAt buf 3 <<< 12) % 4294967296 = byteAt buf 3 <<< 12 :=
    Nat.mod_eq_of_lt (by omega)
  have m4 : (byteAt buf 4 <<< 4) % 4294967296 = byteAt buf 4 <<< 4 :=
    Nat.mod_eq_of_lt (by omega)
  rw [m3, m4, e5]
  refine ⟨rfl, ?_⟩
  have := Nat.or_lt_two_pow (Nat.or_lt_two_pow s3 s4) s5
  simpa [adcTemperature] using this

theorem asr_eq_div (a : Int) (k : Nat) : asr a k = a / 2 ^ k := by
  unfold asr
  rw [Int.shiftRight_eq_div_pow]
  norm_cast

/-- The machine computation of the fine temperature agrees with the exact
formula when the three products fit in `int32_t`. -/
theorem fine_machine_exact (A T1 T2 T3 : Int)
    (hA : 0 ≤ A ∧ A < 1048576) (hT1 : 0 ≤ T1 ∧ T1 < 65536)
    (hT2 : -32768 ≤ T2 ∧ T2 ≤ 32767) (hT3 : -32768 ≤ T3 ∧ T3 ≤ 32767)
    (h1 : fitsInt32 ((asr A 3 - T1 * 2) * T2))
    (h2 : fitsInt32 ((asr A 4 - T1) * (asr A 4 - T1)))
    (h3 : fitsInt32 (asr ((asr A 4 - T1) * (asr A 4 - T1)) 12 * T3)) :
    wrap32 (asr (mul32 (sub32 (asr (wrap32 A) 3) (shl32 (wrap32 T1) 1)) (wrap32 T2)) 11 +
      asr (mul32 (asr (mul32 (sub32 (asr (wrap32 A) 4) (wrap32 T1))
        (sub32 (asr (wrap32 A) 4) (wrap32 T1))) 12) (wrap32 T3)) 14) =
      fineTemperature A T1 T2 T3 ∧
    -2097152 ≤ fineTemperature A T1 T2 T3 ∧ fineTemperature A T1 T2 T3 ≤ 2097152 := by
  have wA : wrap32 A = A := wrap32_of_fits _ ⟨by omega, by omega⟩
  have wT1 : wrap32 T1 = T1 := wrap32_of_fits _ ⟨by omega, by omega⟩
  have wT2 : wrap32 T2 = T2 := wrap32_of_fits _ ⟨by omega, by omega⟩
  have wT3 : wrap32 T3 = T3 := wrap32_of_fits _ ⟨by omega, by omega⟩
  have a3 : 0 ≤ asr A 3 ∧ asr A 3 < 131072 := by
    rw [asr_eq_div]
    norm_num
    omega
  have a4 : 0 ≤ asr A 4 ∧ asr A 4 < 65536 := by
    rw [asr_eq_div]
    norm_num
    omega
  have e1 : shl32 T1 1 = T1 * 2 := by
    unfold shl32
    rw [wrap32_of_fits _ ⟨by omega, by omega⟩]
    norm_num
  have e2 : sub32 (asr A 3) (T1 * 2) = asr A 3 - T1 * 2 :=
    wrap32_of_fits _ ⟨by omega, by omega⟩
  have e3 : sub32 (asr A 4) T1 = asr A 4 - T1 := wrap32_of_fits _ ⟨by omega, by omega⟩
  have e4 : mul32 (asr A 3 - T1 * 2) T2 = (asr A 3 - T1 * 2) * T2 := wrap32_of_fits _ h1
  have e5 : mul32 (asr A 4 - T1) (asr A 4 - T1) = (asr A 4 - T1) * (asr A 4 - T1) :=
    wrap32_of_fits _ h2
  have e6 : mul32 (asr ((asr A 4 - T1) * (asr A 4 - T1)) 12) T3 =
      asr ((asr A 4 - T1) * (asr A 4 - T1)) 12 * T3 := wrap32_of_fits _ h3
  rw [wA, wT1, wT2, wT3, e1, e2, e3, e4, e5, e6]
  have b1 : -1048576 ≤ asr ((asr A 3 - T1 * 2) * T2) 11 ∧
      asr ((asr A 3 - T1 * 2) * T2) 11 ≤ 1048576 := by
    unfold fitsInt32 at h1
    rw [asr_eq_div]
    norm_num
    omega
  have b2 : -1048576 ≤ asr (asr ((asr A 4 - T1) * (asr A 4 - T1)) 12 * T3) 14 ∧
      asr (asr ((asr A 4 - T1) * (asr A 4 - T1)) 12 * T3) 14 ≤ 1048576 := by
    unfold fitsInt32 at h3
    rw [asr_eq_div _ 14]
    norm_num
    omega
  have hf : fineTemperature A T1 T2 T3 = asr ((asr A 3 - T1 * 2) * T2) 11 +
      asr (asr ((asr A 4 - T1) * (asr A 4 - T1)) 12 * T3) 14 := rfl
  rw [hf]
  exact ⟨wrap32_of_fits _ ⟨by omega, by omega⟩, by omega, by omega⟩

theorem BME280_read_temp_output (s : Driver) :
    (BME280_read_temp s).1 =
      ((asr (add32 (mul32 (BME280_read_temp s).2.t_fine 5) 128) 8 : Int) : ℚ) / 100 := rfl

theorem BME280_read_temp_frame (s : Driver) :
    (BME280_read_temp s).2 =
      { s with
        log := s.log ++ [Txn.memRead BME280_ADDR 0xF7 8]
        t_fine := (BME280_read_temp s).2.t_fine } := by
  simp only [BME280_read_temp, BME280_read_register8_eq]

/-- C21: when the calibration values have the range of their C types and the
three products of the documented formula fit in `int32_t`, `BME280_read_temp`
works on `adc = byte3<<12 | byte4<<4 | byte5>>4`, which is below `2^20`,
stores `fine = var1 + var2` of the documented formula, and returns
`((fine*5 + 128) >> 8) / 100`; `fine*5 + 128` then always fits in `int32_t`. -/
theorem C21_read_temp_documented_formula (s : Driver)
    (hT1 : s.dig_T1_val < 65536)
    (hT2 : -32768 ≤ s.dig_T2_val ∧ s.dig_T2_val ≤ 32767)
    (hT3 : -32768 ≤ s.dig_T3_val ∧ s.dig_T3_val ≤ 32767)
    (h1 : fitsInt32 ((asr (adcTemperature (burstBytes s)) 3 - s.dig_T1_val * 2) * s.dig_T2_val))
    (h2 : fitsInt32 ((asr (adcTemperature (burstBytes s)) 4 - s.dig_T1_val) *
      (asr (adcTemperature (burstBytes s)) 4 - s.dig_T1_val)))
    (h3 : fitsInt32 (asr ((asr (adcTemperature (burstBytes s)) 4 - s.dig_T1_val) *
      (asr (adcTemperature (burstBytes s)) 4 - s.dig_T1_val)) 12 * s.dig_T3_val)) :
    adcTemperature (burstBytes s) < 2 ^ 20 ∧
    (BME280_read_temp s).2.t_fine =
      fineTemperature (adcTemperature (burstBytes s)) s.dig_T1_val s.dig_T2_val s.dig_T3_val ∧
    fitsInt32 (fineTemperature (adcTemperature (burstBytes s)) s.dig_T1_val s.dig_T2_val
      s.dig_T3_val * 5 + 128) ∧
    (BME280_read_temp s).1 =
      ((asr (fineTemperature (adcTemperature (burstBytes s)) s.dig_T1_val s.dig_T2_val
        s.dig_T3_val * 5 + 128) 8 : Int) : ℚ) / 100 := by
  obtain ⟨ea, la⟩ := adcTemperature_eq (burstBytes s)
  have hA : (0 : Int) ≤ (adcTemperature (burstBytes s) : Int) ∧
      (adcTemperature (burstBytes s) : Int) < 1048576 :=
    ⟨Int.ofNat_nonneg _, by exact_mod_cast la⟩
  obtain ⟨ef, fl, fu⟩ := fine_machine_exact (adcTemperature (burstBytes s)) s.dig_T1_val
    s.dig_T2_val s.dig_T3_val hA ⟨Int.ofNat_nonneg _, by exact_mod_cast hT1⟩ hT2 hT3 h1 h2 h3
  have hfine : (BME280_read_temp s).2.t_fine =
      fineTemperature (adcTemperature (burstBytes s)) s.dig_T1_val s.dig_T2_val
        s.dig_T3_val := by
    have ea2 := ea
    unfold burstBytes at ea2
    simp only [BME280_read_temp, BME280_read_register8_eq]
    rw [ea2]
    exact ef
  have hfit : fitsInt32 (fineTemperature (adcTemperature (burstBytes s)) s.dig_T1_val
      s.dig_T2_val s.dig_T3_val * 5 + 128) := ⟨by omega, by omega⟩
  refine ⟨la, hfine, hfit, ?_⟩
  rw [BME280_read_temp_output, hfine]
  have e1 : mul32 (fineTemperature (adcTemperature (burstBytes s)) s.dig_T1_val s.dig_T2_val
      s.dig_T3_val) 5 = fineTemperature (adcTemperature (burstBytes s)) s.dig_T1_val
      s.dig_T2_val s.dig_T3_val * 5 := wrap32_of_fits _ ⟨by omega, by omega⟩
  rw [e1]
  have e2 : add32 (fineTemperature (adcTemperature (burstBytes s)) s.dig_T1_val s.dig_T2_val
      s.dig_T3_val * 5) 128 = fineTemperature (adcTemperature (burstBytes s)) s.dig_T1_val
      s.dig_T2_val s.dig_T3_val * 5 + 128 := wrap32_of_fits _ hfit
  rw [e2]

/-- Witness for C21: burst bytes 3..5 equal to `0x7E, 0xED, 0x00` give
`adc = 519888`; with `T1 = 27504`, `T2 = 26435`, `T3 = -1000` the fine
temperature stored is `128422` and the value returned is `2508 / 100`. -/
theorem C21_read_temp_documented_formula_witness :
    adcTemperature (burstBytes temperatureExampleDriver) = 519888 ∧
    (BME280_read_temp temperatureExampleDriver).2.t_fine = 128422 ∧
    (BME280_read_temp temperatureExampleDriver).1 = 2508 / 100 := by
  have hadc : adcTemperature (burstBytes temperatureExampleDriver) = 519888 := by decide
  have hf : fineTemperature ((519888 : Nat) : Int) ((27504 : Nat) : Int) 26435 (-1000) =
      128422 := by decide
  obtain ⟨_, h2, _, h4⟩ := C21_read_temp_documented_formula temperatureExampleDriver
    (by decide) (by decide) (by decide)
    (by rw [hadc]; unfold fitsInt32; decide)
    (by rw [hadc]; unfold fitsInt32; decide)
    (by rw [hadc]; unfold fitsInt32; decide)
  rw [hadc] at h2 h4
  have e1 : temperatureExampleDriver.dig_T1_val = 27504 := rfl
  have e2 : temperatureExampleDriver.dig_T2_val = 26435 := rfl
  have e3 : temperatureExampleDriver.dig_T3_val = -1000 := rfl
  rw [e1, e2, e3] at h2 h4
  have hq : asr (128422 * 5 + 128) 8 = 2508 := by decide
  rw [hf] at h2 h4
  rw [hq] at h4
  refine ⟨hadc, h2, ?_⟩
  rw [h4]
  norm_num

/-! ## Frame of the two compensation reads -/

theorem adcHumidity_eq (buf : List Nat) :
    wrap32 ((((byteAt buf 6 <<< 8) % 4294967296) ||| byteAt buf 7 : Nat) : Int) =
      (adcHumidity buf : Int) ∧ adcHumidity buf < 65536 := by
  obtain ⟨e, l⟩ := word_of_bytes (byteAt buf 6) (byteAt buf 7) (byteAt_lt _ _) (byteAt_lt _ _)
  have h6 := byteAt_lt buf 6
  have s6 : byteAt buf 6 <<< 8 < 65536 := by
    rw [Nat.shiftLeft_eq]
    omega
  rw [Nat.mod_eq_of_lt (by omega)]
  refine ⟨?_, l⟩
  unfold adcHumidity
  apply wrap32_of_fits
  unfold fitsInt32
  omega

theorem BME280_hum_var1_log (a : Int) (s : Driver) (l : List Txn) :
    BME280_hum_var1 a { s with log := l } = BME280_hum_var1 a s := rfl

theorem BME280_read_hum_eq (s : Driver) :
    BME280_read_hum s =
      (((asr (BME280_hum_var1 (adcHumidity (burstBytes s)) s) 12 : Int) : ℚ) / 1024,
       { s with log := s.log ++ [Txn.memRead BME280_ADDR 0xF7 8] }) := by
  simp only [BME280_read_hum, BME280_read_register8_eq]
  rw [(adcHumidity_eq _).1, BME280_hum_var1_log]
  rfl

/-- C22: `BME280_read_temp` changes only the stored fine temperature (besides
logging its burst read): the coefficients and the gas readings are those of
the state before.  `BME280_read_hum` changes no variable of the driver at all
(it only logs its own burst read).  The humidity returned is determined by
`adc_H = byte6<<8 | byte7` of the burst read, the coefficients `H1..H6` and
the stored fine temperature: two states that agree on these return the same
humidity.  `BME280_read_hum` run after `BME280_read_temp` compensates with the
fine temperature that `BME280_read_temp` stored, and when its burst read
delivers the bytes that `BME280_read_temp` saw, with the `adc_H` of that same
snapshot. -/
theorem C22_read_temp_read_hum_frame (s : Driver) :
    (BME280_read_temp s).2 =
      { s with
        log := s.log ++ [Txn.memRead 0xEE 0xF7 8]
        t_fine := (BME280_read_temp s).2.t_fine } ∧
    (BME280_read_hum s).2 = { s with log := s.log ++ [Txn.memRead 0xEE 0xF7 8] } ∧
    (BME280_read_hum s).1 =
      ((asr (BME280_hum_var1 (adcHumidity (burstBytes s)) s) 12 : Int) : ℚ) / 1024 ∧
    (∀ d : Driver, adcHumidity (burstBytes d) = adcHumidity (burstBytes s) →
      d.dig_H1_val = s.dig_H1_val → d.dig_H2_val = s.dig_H2_val →
      d.dig_H3_val = s.dig_H3_val → d.dig_H4_val = s.dig_H4_val →
      d.dig_H5_val = s.dig_H5_val → d.dig_H6_val = s.dig_H6_val → d.t_fine = s.t_fine →
      (BME280_read_hum d).1 = (BME280_read_hum s).1) ∧
    (BME280_read_hum (BME280_read_temp s).2).1 =
      ((asr (BME280_hum_var1 (adcHumidity (burstBytes (BME280_read_temp s).2))
        { s with t_fine := (BME280_read_temp s).2.t_fine }) 12 : Int) : ℚ) / 1024 ∧
    (burstBytes (BME280_read_temp s).2 = burstBytes s →
      (BME280_read_hum (BME280_read_temp s).2).1 =
        ((asr (BME280_hum_var1 (adcHumidity (burstBytes s))
          { s with t_fine := (BME280_read_temp s).2.t_fine }) 12 : Int) : ℚ) / 1024) := by
  have hseq : (BME280_read_hum (BME280_read_temp s).2).1 =
      ((asr (BME280_hum_var1 (adcHumidity (burstBytes (BME280_read_temp s).2))
        { s with t_fine := (BME280_read_temp s).2.t_fine }) 12 : Int) : ℚ) / 1024 := by
    rw [BME280_read_hum_eq]
    generalize burstBytes (BME280_read_temp s).2 = b
    rw [BME280_read_temp_frame]
    rfl
  refine ⟨BME280_read_temp_frame s, ?_, ?_, ?_, hseq, ?_⟩
  · rw [BME280_read_hum_eq]
    rfl
  · rw [BME280_read_hum_eq]
  · intro d ha h1 h2 h3 h4 h5 h6 ht
    rw [BME280_read_hum_eq, BME280_read_hum_eq, ha]
    simp only [BME280_hum_var1, h1, h2, h3, h4, h5, h6, ht]
  · intro hb
    rw [hseq, hb]

/-- Witness for C22: on the example driver the temperature read stores the
fine temperature `128422`, and the humidity read that follows returns the
value compensated with `128422` (the second burst read delivers the same
bytes). -/
theorem C22_read_temp_read_hum_frame_witness :
    (BME280_read_temp temperatureExampleDriver).2.t_fine = 128422 ∧
    (BME280_read_hum (BME280_read_temp temperatureExampleDriver).2).1 =
      ((asr (BME280_hum_var1 (adcHumidity (burstBytes temperatureExampleDriver))
        { temperatureExampleDriver with t_fine := 128422 }) 12 : Int) : ℚ) / 1024 := by
  have hf : (BME280_read_temp temperatureExampleDriver).2.t_fine = 128422 := by decide
  have h := (C22_read_temp_read_hum_frame temperatureExampleDriver).2.2.2.2.2 (by decide)
  rw [hf] at h
  exact ⟨hf, h⟩

/-! ## Order and abort of the calibration reads (`BME280_read_calibration`) -/

theorem first_false_or_all (f : Nat → Bool) (n : Nat) :
    (∀ j < n, f j = true) ∨ ∃ k < n, (∀ j < k, f j = true) ∧ f k = false := by
  induction n with
  | zero =>
    left
    intro j hj
    omega
  | succ n ih =>
    rcases ih with h | ⟨k, hk, hp, hf⟩
    · cases hn : f n with
      | true =>
        left
        intro j hj
        rcases Nat.lt_succ_iff_lt_or_eq.mp hj with h1 | h1
        · exact h j h1
        · rw [h1]
          exact hn
      | false => exact Or.inr ⟨n, by omega, h, hn⟩
    · exact Or.inr ⟨k, by omega, hp, hf⟩

set_option maxHeartbeats 4000000 in
theorem BME280_read_calibration_nine_ok (s : Driver)
    (hall : ∀ j < 9, calibrationReadOk s j = true) :
    (BME280_read_calibration s).1 = BME280_SUCCESS ∧
    (BME280_read_calibration s).2.device = s.device ∧
    (BME280_read_calibration s).2.log = s.log ++ calibrationReads ∧
    (BME280_read_calibration s).2.dig_H4_val =
      wrap16 (Int.lor (wrap16 (((calibrationWord s 6 &&& 0x00FF) <<< 4 : Nat) : Int))
        (((calibrationWord s 6 &&& 0x0F00) >>> 8 : Nat) : Int)) ∧
    (BME280_read_calibration s).2.dig_H5_val =
      wrap16 ((calibrationWord s 7 >>> 4 : Nat) : Int) := by
  have h0 := hall 0 (by decide)
  have h1 := hall 1 (by decide)
  have h2 := hall 2 (by decide)
  have h3 := hall 3 (by decide)
  have h4 := hall 4 (by decide)
  have h5 := hall 5 (by decide)
  have h6 := hall 6 (by decide)
  have h7 := hall 7 (by decide)
  have h8 := hall 8 (by decide)
  clear hall
  simp [calibrationReadOk, calibrationReply, calibrationReads] at h0 h1 h2 h3 h4 h5 h6 h7 h8
  simp only [BME280_read_calibration, BME280_read_register16_eq,
    BME280_read_register8_eq, List.append_assoc, List.singleton_append, List.cons_append,
    List.nil_append, h0, h1, h2, h3, h4, h5, h6, h7, h8, if_true, if_false, ne_eq,
    not_true_eq_false, Bool.false_eq_true, reduceCtorEq, not_false_eq_true, calibrationWord,
    calibrationByte, calibrationReply, calibrationReads]
  simp

theorem calibrationWord_lt (s : Driver) (k : Nat) : calibrationWord s k < 65536 := by
  unfold calibrationWord
  omega

/-- C23: the calibration reads are the registers `0x88, 0x8A, 0x8C, 0xA1,
0xE1, 0xE3, 0xE4, 0xE5, 0xE7` of the climate sensor, in this order.
`BME280_read_calibration` returns `BME280_SUCCESS` exactly when all nine reads
succeed, and it then has issued the nine reads in that order.  When read
number `k` (counted from 0) is the first to fail, it returns
`BME280_I2C_ERROR` and the transactions it has issued are the first `k + 1`
reads of the list: the failing read is the last one. -/
theorem C23_read_calibration_order_and_abort (s : Driver) :
    calibrationReads =
      [Txn.memRead 0xEE 0x88 2, Txn.memRead 0xEE 0x8A 2, Txn.memRead 0xEE 0x8C 2,
       Txn.memRead 0xEE 0xA1 1, Txn.memRead 0xEE 0xE1 2, Txn.memRead 0xEE 0xE3 1,
       Txn.memRead 0xEE 0xE4 2, Txn.memRead 0xEE 0xE5 2, Txn.memRead 0xEE 0xE7 1] ∧
    ((BME280_read_calibration s).1 = BME280_SUCCESS ↔
      ∀ j < 9, calibrationReadOk s j = true) ∧
    ((∀ j < 9, calibrationReadOk s j = true) →
      (BME280_read_calibration s).2.log = s.log ++ calibrationReads) ∧
    (∀ k < 9, (∀ j < k, calibrationReadOk s j = true) → calibrationReadOk s k = false →
      (BME280_read_calibration s).1 = BME280_I2C_ERROR ∧
      (BME280_read_calibration s).2.log = s.log ++ calibrationReads.take (k + 1) ∧
      (calibrationReads.take (k + 1)).length = k + 1) := by
  refine ⟨rfl, ⟨?_, fun h => (BME280_read_calibration_nine_ok s h).1⟩,
    fun h => (BME280_read_calibration_nine_ok s h).2.2.1, ?_⟩
  · intro hs
    rcases first_false_or_all (calibrationReadOk s) 9 with h | ⟨k, hk, hp, hf⟩
    · exact h
    · have he := (BME280_read_calibration_first_failure s k hk hp hf).2.2.1
      rw [he] at hs
      exact absurd hs (by decide)
  · intro k hk hp hf
    obtain ⟨_, hl, he, _⟩ := BME280_read_calibration_first_failure s k hk hp hf
    refine ⟨he, hl, ?_⟩
    rw [List.length_take]
    have : calibrationReads.length = 9 := rfl
    omega

/-- Witness for C23: on `calibFailDriver` read number 0 succeeds and read
number 1 fails; the driver stops after these two reads. -/
theorem C23_read_calibration_order_and_abort_witness :
    (BME280_read_calibration calibFailDriver).1 = BME280_I2C_ERROR ∧
    (BME280_read_calibration calibFailDriver).2.log =
      calibFailDriver.log ++ calibrationReads.take (1 + 1) ∧
    (calibrationReads.take (1 + 1)).length = 1 + 1 :=
  (C23_read_calibration_order_and_abort calibFailDriver).2.2.2 1 (by decide)
    (by decide) (by decide)

/-! ## Range of the decoded `H4` and `H5` -/

set_option maxRecDepth 100000 in
theorem top_bit_field_all : ∀ b < 256, b &&& 0x80 ≠ 0 → 2048 ≤ b <<< 4 := by
  decide

theorem H4_top_bit (raw : Nat) (h : raw &&& 0x80 ≠ 0) :
    2048 ≤ (raw &&& 0x00FF) <<< 4 ||| (raw &&& 0x0F00) >>> 8 := by
  have hb : raw &&& 0x00FF < 256 := by
    have := @Nat.and_le_right raw 0x00FF
    omega
  have e : (raw &&& 0x00FF) &&& 0x80 = raw &&& 0x80 := by
    have e0 : (0x00FF &&& 0x80 : Nat) = 0x80 := by decide
    rw [Nat.land_assoc, e0]
  have h2 := top_bit_field_all (raw &&& 0x00FF) hb (by rw [e]; exact h)
  have hc : (raw &&& 0x0F00) >>> 8 < 2 ^ 4 := by
    have := @Nat.and_le_right raw 0x0F00
    rw [Nat.shiftRight_eq_div_pow]
    omega
  have e2 : (raw &&& 0x00FF) <<< 4 ||| (raw &&& 0x0F00) >>> 8 =
      2 ^ 4 * (raw &&& 0x00FF) + (raw &&& 0x0F00) >>> 8 := by
    rw [Nat.shiftLeft_eq, Nat.mul_comm (raw &&& 0x00FF) (2 ^ 4)]
    exact (Nat.mul_add_lt_is_or hc _).symm
  rw [Nat.shiftLeft_eq] at h2
  omega

/-- C29: when the nine calibration reads succeed, the stored `H4` is
`((raw4 AND 0xFF) << 4) OR ((raw4 AND 0x0F00) >> 8)` and the stored `H5` is
`raw5 >> 4` as unsigned values, for the 16-bit words `raw4`, `raw5` read from
`0xE4` and `0xE5`: both lie in 0..4095 whatever the raw words are.  A field
whose top bit is set (bit 7 of `raw4`, bit 15 of `raw5`) is stored as a value
in 2048..4095, never as a negative coefficient. -/
theorem C29_H4_H5_never_negative (s : Driver)
    (hall : ∀ j < 9, calibrationReadOk s j = true) :
    (BME280_read_calibration s).2.dig_H4_val =
      (((calibrationWord s 6 &&& 0x00FF) <<< 4 ||| (calibrationWord s 6 &&& 0x0F00) >>> 8 : Nat)
        : Int) ∧
    (BME280_read_calibration s).2.dig_H5_val = ((calibrationWord s 7 >>> 4 : Nat) : Int) ∧
    0 ≤ (BME280_read_calibration s).2.dig_H4_val ∧
    (BME280_read_calibration s).2.dig_H4_val ≤ 4095 ∧
    0 ≤ (BME280_read_calibration s).2.dig_H5_val ∧
    (BME280_read_calibration s).2.dig_H5_val ≤ 4095 ∧
    (calibrationWord s 6 &&& 0x80 ≠ 0 → 2048 ≤ (BME280_read_calibration s).2.dig_H4_val) ∧
    (32768 ≤ calibrationWord s 7 → 2048 ≤ (BME280_read_calibration s).2.dig_H5_val) := by
  obtain ⟨_, _, _, e4, e5⟩ := BME280_read_calibration_nine_ok s hall
  obtain ⟨f1, f2, f3⟩ := H4_field_lt (calibrationWord s 6)
  have r5 := calibrationWord_lt s 7
  have g5 : calibrationWord s 7 >>> 4 < 4096 := by
    rw [Nat.shiftRight_eq_div_pow]
    omega
  have e4b : wrap16 (Int.lor (wrap16 (((calibrationWord s 6 &&& 0x00FF) <<< 4 : Nat) : Int))
      (((calibrationWord s 6 &&& 0x0F00) >>> 8 : Nat) : Int)) =
      (((calibrationWord s 6 &&& 0x00FF) <<< 4 ||| (calibrationWord s 6 &&& 0x0F00) >>> 8 : Nat)
        : Int) := by
    rw [wrap16_of_lt _ (by omega)]
    exact wrap16_of_lt _ (by omega)
  have e5b : wrap16 ((calibrationWord s 7 >>> 4 : Nat) : Int) =
      ((calibrationWord s 7 >>> 4 : Nat) : Int) := wrap16_of_lt _ (by omega)
  rw [e4b] at e4
  rw [e5b] at e5
  rw [e4, e5]
  refine ⟨rfl, rfl, Int.ofNat_nonneg _, by omega, Int.ofNat_nonneg _, by omega, ?_, ?_⟩
  · intro h
    have := H4_top_bit _ h
    omega
  · intro h
    have : 2048 ≤ calibrationWord s 7 >>> 4 := by
      rw [Nat.shiftRight_eq_div_pow]
      omega
    omega

/-- Witness for C29: on the demo device the raw words are `0x1234` and
`0x5678`; the stored values are `0x342` and `0x567`. -/
theorem C29_H4_H5_never_negative_witness :
    (BME280_read_calibration demoDriver).2.dig_H4_val = 0x342 ∧
    (BME280_read_calibration demoDriver).2.dig_H5_val = 0x567 ∧
    0 ≤ (BME280_read_calibration demoDriver).2.dig_H4_val ∧
    (BME280_read_calibration demoDriver).2.dig_H4_val ≤ 4095 ∧
    0 ≤ (BME280_read_calibration demoDriver).2.dig_H5_val ∧
    (BME280_read_calibration demoDriver).2.dig_H5_val ≤ 4095 := by
  obtain ⟨a, b, c, d, e, f, _, _⟩ := C29_H4_H5_never_negative demoDriver (by decide)
  exact ⟨by rw [a]; decide, by rw [b]; decide, c, d, e, f⟩

/-! ## Fail-stop bring-up of the gas sensor (`CCS811_init`) -/

set_option maxHeartbeats 4000000 in
theorem CCS811_init_first_failure (s : Driver) (fuel k : Nat) (hk1 : 1 ≤ k) (hk : k < 8)
    (hprev : ∀ j < k, bringUpStepFails s j = false) (hfail : bringUpStepFails s k = true) :
    CCS811_init (fuel + 1) s =
      some (bringUpStepStatus k, { s with log := s.log ++ (bringUpTxns s).take (k + 1) }) := by
  have h0 := hprev 0
  have h1 := hprev 1
  have h2 := hprev 2
  have h3 := hprev 3
  have h4 := hprev 4
  have h5 := hprev 5
  have h6 := hprev 6
  clear hprev
  interval_cases k
  all_goals simp [bringUpStepFails, bringUpReply, bringUpTxns, bringUpHead, bringUpModeByte,
    CCS811_ADDR, STATUS_REG, MEAS_MODE, SW_RESET, APP_START] at h0 h1 h2 h3 h4 h5 h6 hfail
  all_goals simp [CCS811_init, HAL_I2C_Mem_Read, CCS811_reset, CCS811_read_status_error,
      CCS811_read_app_valid, CCS811_app_start, HAL_I2C_Master_Transmit, CCS811_write_mode,
      CCS811_read_register_eq, CCS811_write_register_eq, CCS811_ADDR, STATUS_REG,
      MEAS_MODE, SW_RESET, APP_START, bringUpStepStatus, bringUpTxns, bringUpHead,
      bringUpModeByte, h0, h1, h2, h3, h4, h5, h6, hfail]

set_option maxHeartbeats 4000000 in
theorem CCS811_init_all_pass (s : Driver) (fuel : Nat)
    (hall : ∀ j < 8, bringUpStepFails s j = false) :
    CCS811_init (fuel + 1) s =
      some (CCS811_SUCCESS, { s with log := s.log ++ bringUpTxns s }) := by
  have h0 := hall 0 (by decide)
  have h1 := hall 1 (by decide)
  have h2 := hall 2 (by decide)
  have h3 := hall 3 (by decide)
  have h4 := hall 4 (by decide)
  have h5 := hall 5 (by decide)
  have h6 := hall 6 (by decide)
  have h7 := hall 7 (by decide)
  clear hall
  simp [bringUpStepFails, bringUpReply, bringUpTxns, bringUpHead, bringUpModeByte,
    CCS811_ADDR, STATUS_REG, MEAS_MODE, SW_RESET, APP_START] at h0 h1 h2 h3 h4 h5 h6 h7
  simp [CCS811_init, HAL_I2C_Mem_Read, CCS811_reset, CCS811_read_status_error,
      CCS811_read_app_valid, CCS811_app_start, HAL_I2C_Master_Transmit, CCS811_write_mode,
      CCS811_read_register_eq, CCS811_write_register_eq, CCS811_ADDR, STATUS_REG,
      MEAS_MODE, SW_RESET, APP_START, bringUpTxns, bringUpHead,
      bringUpModeByte, h0, h1, h2, h3, h4, h5, h6, h7]

theorem first_true_or_none (f : Nat → Bool) (n : Nat) :
    (∀ j < n, f j = false) ∨ ∃ k < n, (∀ j < k, f j = false) ∧ f k = true := by
  rcases first_false_or_all (fun j => !f j) n with h | ⟨k, hk, hp, hf⟩
  · left
    intro j hj
    simpa using h j hj
  · right
    refine ⟨k, hk, ?_, by simpa using hf⟩
    intro j hj
    simpa using hp j hj

theorem bringUpStepStatus_ne_success (k : Nat) : bringUpStepStatus k ≠ CCS811_SUCCESS := by
  unfold bringUpStepStatus
  split <;> decide

/-- C24: when the identity probe of a pass of `CCS811_init` is accepted and
step `k` of the bring-up is the first to fail (1: the reset-key write fails,
2: the first status read has the error bit set, 3: the app-valid bit is clear,
4: the app-start transmit fails, 5 or 6: the read or the write of the mode
read-modify-write fails, 7: the last status read has the error bit set),
`CCS811_init` returns a status other than `CCS811_SUCCESS` and the
transactions it has issued are exactly steps 0 to `k`: none of a later step.
In particular no app-start command is sent when the app is not valid. -/
theorem C24_init_fail_stop (s : Driver) (fuel k : Nat) (hk1 : 1 ≤ k) (hk : k < 8)
    (hprev : ∀ j < k, bringUpStepFails s j = false) (hfail : bringUpStepFails s k = true) :
    ∃ st, st ≠ CCS811_SUCCESS ∧
      CCS811_init (fuel + 1) s =
        some (st, { s with log := s.log ++ (bringUpTxns s).take (k + 1) }) ∧
      ((bringUpTxns s).take (k + 1)).length = k + 1 ∧
      (k = 3 → (bringUpTxns s).take (k + 1) =
        [Txn.memRead 0xB6 0x20 1, Txn.memWrite 0xB6 0xFF [0x11, 0xE5, 0x72, 0x8A],
         Txn.memRead 0xB6 0x00 1, Txn.memRead 0xB6 0x00 1]) := by
  refine ⟨bringUpStepStatus k, bringUpStepStatus_ne_success k,
    CCS811_init_first_failure s fuel k hk1 hk hprev hfail, ?_, ?_⟩
  · rw [List.length_take]
    have : (bringUpTxns s).length = 8 := rfl
    omega
  · intro h3
    subst h3
    rfl

/-- Witness for C24: on the device whose status register reads `0x00` the
app-valid check (step 3) is the first to fail; bring-up stops after the
identity read, the reset write and two status reads, and sends no app-start
command. -/
theorem C24_init_fail_stop_witness :
    ∃ st, st ≠ CCS811_SUCCESS ∧
      CCS811_init (0 + 1) appInvalidDriver =
        some (st, { appInvalidDriver with
          log := appInvalidDriver.log ++ (bringUpTxns appInvalidDriver).take (3 + 1) }) ∧
      ((bringUpTxns appInvalidDriver).take (3 + 1)).length = 3 + 1 ∧
      (3 = 3 → (bringUpTxns appInvalidDriver).take (3 + 1) =
        [Txn.memRead 0xB6 0x20 1, Txn.memWrite 0xB6 0xFF [0x11, 0xE5, 0x72, 0x8A],
         Txn.memRead 0xB6 0x00 1, Txn.memRead 0xB6 0x00 1]) :=
  C24_init_fail_stop appInvalidDriver 0 3 (by decide) (by decide) (by decide) (by decide)

/-! ## Identity probing of the gas sensor (`CCS811_init`): retries -/

theorem CCS811_init_probe_rejected (s : Driver) (fuel : Nat) (h : probeFails s 0 = true) :
    CCS811_init (fuel + 1) s =
      CCS811_init fuel { s with log := s.log ++ [Txn.memRead CCS811_ADDR 0x20 1] } := by
  simp [probeFails] at h
  have hc : (!(s.device s.log (Txn.memRead CCS811_ADDR 0x20 1)).ok) = true ∨
      byteAt (s.device s.log (Txn.memRead CCS811_ADDR 0x20 1)).data 0 ≠ 0x81 := by
    rcases h with h | h
    · left
      simp [h]
    · right
      exact h
  simp only [CCS811_init, HAL_I2C_Mem_Read, if_pos hc]

theorem CCS811_init_skip_rejected (n : Nat) (s : Driver) (fuel : Nat)
    (hfail : ∀ i < n, probeFails s i = true) :
    CCS811_init (n + fuel) s =
      CCS811_init fuel
        { s with log := s.log ++ List.replicate n (Txn.memRead CCS811_ADDR 0x20 1) } := by
  induction n generalizing s with
  | zero => simp
  | succ n ih =>
    have e : n + 1 + fuel = (n + fuel) + 1 := by omega
    rw [e, CCS811_init_probe_rejected s _ (hfail 0 (by omega)), ih]
    · simp [List.replicate_succ]
    · intro i hi
      have := hfail (i + 1) (by omega)
      simpa [probeFails, List.replicate_succ] using this

theorem CCS811_init_accepted (s : Driver) (fuel : Nat) (h0 : probeFails s 0 = false) :
    ∃ st m, CCS811_init (fuel + 1) s = some (st,
      { s with
        log := s.log ++
          Txn.memRead CCS811_ADDR 0x20 1 ::
          Txn.memWrite CCS811_ADDR SW_RESET [0x11, 0xE5, 0x72, 0x8A] ::
          ((bringUpTxns s).drop 2).take m }) := by
  have hb0 : bringUpStepFails s 0 = false := by
    rw [← h0]
    simp [bringUpStepFails, bringUpReply, bringUpTxns, bringUpHead, probeFails]
  have hsplit : ∀ m, (bringUpTxns s).take (m + 2) =
      Txn.memRead CCS811_ADDR 0x20 1 ::
      Txn.memWrite CCS811_ADDR SW_RESET [0x11, 0xE5, 0x72, 0x8A] ::
      ((bringUpTxns s).drop 2).take m := by
    intro m
    rfl
  rcases first_true_or_none (bringUpStepFails s) 8 with hall | ⟨k, hk, hp, hf⟩
  · refine ⟨CCS811_SUCCESS, 6, ?_⟩
    rw [CCS811_init_all_pass s fuel hall]
    rfl
  · have hk1 : 1 ≤ k := by
      rcases Nat.eq_zero_or_pos k with hz | hz
      · rw [hz, hb0] at hf
        exact absurd hf (by decide)
      · exact hz
    refine ⟨bringUpStepStatus k, k - 1, ?_⟩
    rw [CCS811_init_first_failure s fuel k hk1 hk hp hf, ← hsplit]
    have e : k - 1 + 2 = k + 1 := by omega
    rw [e]

theorem probe_not_in_tail (s : Driver) (m : Nat) :
    Txn.memRead CCS811_ADDR 0x20 1 ∉ ((bringUpTxns s).drop 2).take m := by
  intro h
  have h2 := List.mem_of_mem_take h
  simp [bringUpTxns, bringUpHead, CCS811_ADDR, STATUS_REG, MEAS_MODE] at h2

/-- C25: when the first `n` identity probes are rejected (transport failure or
a byte other than `0x81`) and probe number `n` reads `0x81`, `CCS811_init`
does not return within `n` probes, and with any larger allowance it returns
what bring-up returns when started after the `n` rejected probes: its
transactions are `n + 1` identity reads, then the reset-key write, then the
rest of the bring-up, which contains no further identity read.  This holds
for every `n`: no number of rejected probes makes it give up. -/
theorem C25_init_retries_until_identity (s : Driver) (n extra : Nat)
    (hfail : ∀ i < n, probeFails s i = true) (hpass : probeFails s n = false) :
    CCS811_init n s = none ∧
    CCS811_init (n + 1 + extra) s = CCS811_init (1 + extra)
      { s with log := s.log ++ List.replicate n (Txn.memRead CCS811_ADDR 0x20 1) } ∧
    ∃ st rest, CCS811_init (n + 1 + extra) s = some (st,
      { s with
        log := s.log ++
          List.replicate (n + 1) (Txn.memRead CCS811_ADDR 0x20 1) ++
          Txn.memWrite CCS811_ADDR SW_RESET [0x11, 0xE5, 0x72, 0x8A] :: rest }) ∧
      Txn.memRead CCS811_ADDR 0x20 1 ∉ rest := by
  have hskip : CCS811_init (n + 1 + extra) s = CCS811_init (1 + extra)
      { s with log := s.log ++ List.replicate n (Txn.memRead CCS811_ADDR 0x20 1) } := by
    rw [Nat.add_assoc]
    exact CCS811_init_skip_rejected n s (1 + extra) hfail
  refine ⟨?_, hskip, ?_⟩
  · have := CCS811_init_skip_rejected n s 0 hfail
    rw [Nat.add_zero] at this
    rw [this]
    rfl
  · have hp0 : probeFails
        { s with log := s.log ++ List.replicate n (Txn.memRead CCS811_ADDR 0x20 1) } 0 =
        false := by
      rw [← hpass]
      simp [probeFails]
    obtain ⟨st, m, hm⟩ := CCS811_init_accepted _ extra hp0
    refine ⟨st, _, ?_, probe_not_in_tail
      { s with log := s.log ++ List.replicate n (Txn.memRead CCS811_ADDR 0x20 1) } m⟩
    rw [hskip, Nat.add_comm 1 extra, hm]
    simp [List.replicate_succ', List.append_assoc]

/-- Witness for C25: the identity register reads `0x55` on the first probe and
`0x81` on the second; bring-up completes after two probes. -/
theorem C25_init_retries_until_identity_witness :
    (CCS811_init 1 retryDriver = none ∧
     CCS811_init (1 + 1 + 0) retryDriver = CCS811_init (1 + 0)
      { retryDriver with
        log := retryDriver.log ++ List.replicate 1 (Txn.memRead CCS811_ADDR 0x20 1) } ∧
     ∃ st rest, CCS811_init (1 + 1 + 0) retryDriver = some (st,
      { retryDriver with
        log := retryDriver.log ++
          List.replicate (1 + 1) (Txn.memRead CCS811_ADDR 0x20 1) ++
          Txn.memWrite CCS811_ADDR SW_RESET [0x11, 0xE5, 0x72, 0x8A] :: rest }) ∧
      Txn.memRead CCS811_ADDR 0x20 1 ∉ rest) ∧
    (CCS811_init 2 retryDriver).map (fun p => (p.1, p.2.log)) =
      some (CCS811_SUCCESS,
        [Txn.memRead 0xB6 0x20 1, Txn.memRead 0xB6 0x20 1,
         Txn.memWrite 0xB6 0xFF [0x11, 0xE5, 0x72, 0x8A], Txn.memRead 0xB6 0x00 1,
         Txn.memRead 0xB6 0x00 1, Txn.masterTransmit 0xB6 [0xF4], Txn.memRead 0xB6 0x01 1,
         Txn.memWrite 0xB6 0x01 [0x10], Txn.memRead 0xB6 0x00 1]) :=
  ⟨C25_init_retries_until_identity retryDriver 1 0 (by decide) (by decide), by decide⟩

/-! ## Order of the oversampling writes in `BME280_init` -/

theorem BME280_init_success_chain (s : Driver) (h : (BME280_init s).1 = BME280_SUCCESS) :
    ∃ s2 s3 s4 s5 s6,
      BME280_read_calibration { s with log := s.log ++ [Txn.memRead BME280_ADDR ID_REG 1] } =
        (BME280_SUCCESS, s2) ∧
      BME280_config s2 = (BME280_SUCCESS, s3) ∧
      BME280_set_mode s3 0 = (BME280_SUCCESS, s4) ∧
      BME280_set_hum_os s4 = (BME280_SUCCESS, s5) ∧
      BME280_set_temp_os s5 = (BME280_SUCCESS, s6) ∧
      (BME280_set_mode s6 3).1 = BME280_SUCCESS ∧
      BME280_init s = BME280_set_mode s6 3 := by
  unfold BME280_init at h ⊢
  rw [BME280_read_register8_eq] at h ⊢
  dsimp only at h ⊢
  by_cases c0 : (s.device s.log (Txn.memRead BME280_ADDR ID_REG 1)).ok = true
  swap
  · rw [if_neg c0, if_pos (show BME280_I2C_ERROR ≠ BME280_SUCCESS by decide)] at h
    have h2 : BME280_I2C_ERROR = BME280_SUCCESS := h
    exact absurd h2 (by decide)
  rw [if_pos c0, if_neg (not_not.mpr rfl)] at h ⊢
  by_cases c1 : byteAt (s.device s.log (Txn.memRead BME280_ADDR ID_REG 1)).data 0 ≠ 0x60
  · rw [if_pos c1] at h
    have h2 : BME280_ID_ERR = BME280_SUCCESS := h
    exact absurd h2 (by decide)
  rw [if_neg c1] at h ⊢
  generalize BME280_read_calibration
    { s with log := s.log ++ [Txn.memRead BME280_ADDR ID_REG 1] } = r2 at h ⊢
  obtain ⟨st2, s2⟩ := r2
  dsimp only at h ⊢
  by_cases c2 : st2 = BME280_SUCCESS
  swap
  · rw [if_pos c2] at h
    exact absurd h c2
  subst c2
  rw [if_neg (not_not.mpr rfl)] at h ⊢
  generalize hr3 : BME280_config s2 = r3 at h ⊢
  obtain ⟨st3, s3⟩ := r3
  dsimp only at h ⊢
  by_cases c3 : st3 = BME280_SUCCESS
  swap
  · rw [if_pos c3] at h
    exact absurd h c3
  subst c3
  rw [if_neg (not_not.mpr rfl)] at h ⊢
  generalize hr4 : BME280_set_mode s3 0 = r4 at h ⊢
  obtain ⟨st4, s4⟩ := r4
  dsimp only at h ⊢
  by_cases c4 : st4 = BME280_SUCCESS
  swap
  · rw [if_pos c4] at h
    exact absurd h c4
  subst c4
  rw [if_neg (not_not.mpr rfl)] at h ⊢
  generalize hr5 : BME280_set_hum_os s4 = r5 at h ⊢
  obtain ⟨st5, s5⟩ := r5
  dsimp only at h ⊢
  by_cases c5 : st5 = BME280_SUCCESS
  swap
  · rw [if_pos c5] at h
    exact absurd h c5
  subst c5
  rw [if_neg (not_not.mpr rfl)] at h ⊢
  generalize hr6 : BME280_set_temp_os s5 = r6 at h ⊢
  obtain ⟨st6, s6⟩ := r6
  dsimp only at h ⊢
  by_cases c6 : st6 = BME280_SUCCESS
  swap
  · rw [if_pos c6] at h
    exact absurd h c6
  subst c6
  rw [if_neg (not_not.mpr rfl)] at h ⊢
  have c7 : (BME280_set_mode s6 3).1 = BME280_SUCCESS := by
    split_ifs at h <;> exact h
  refine ⟨s2, s3, s4, s5, s6, rfl, hr3, hr4, hr5, hr6, c7, ?_⟩
  split_ifs <;> rfl

theorem BME280_read_calibration_success_log (s s2 : Driver)
    (h : BME280_read_calibration s = (BME280_SUCCESS, s2)) :
    s2.log = s.log ++ calibrationReads := by
  have hs : (BME280_read_calibration s).1 = BME280_SUCCESS := by rw [h]
  rcases first_false_or_all (calibrationReadOk s) 9 with hall | ⟨k, hk, hp, hf⟩
  · have := (BME280_read_calibration_nine_ok s hall).2.2.1
    rw [h] at this
    exact this
  · have he := (BME280_read_calibration_first_failure s k hk hp hf).2.2.1
    rw [he] at hs
    exact absurd hs (by decide)

theorem BME280_config_success_log (s s2 : Driver)
    (h : BME280_config s = (BME280_SUCCESS, s2)) :
    ∃ c, s2.log = s.log ++
      [Txn.memRead BME280_ADDR CONFIG_REG 1, Txn.memWrite BME280_ADDR CONFIG_REG [c]] := by
  rw [BME280_config_eq] at h
  by_cases hok : (s.device s.log (Txn.memRead BME280_ADDR CONFIG_REG 1)).ok = true
  · rw [if_pos hok, BME280_write_register_eq] at h
    have h2 := congrArg (fun p => p.2.log) h
    simp only at h2
    rw [← h2]
    exact ⟨_, List.append_assoc _ _ _⟩
  · rw [if_neg hok] at h
    have h1 : BME280_I2C_ERROR = BME280_SUCCESS := congrArg (fun p => p.1) h
    exact absurd h1 (by decide)

theorem BME280_set_mode_success_log (s s2 : Driver) (m : Nat) (hm : m ≤ 3)
    (h : BME280_set_mode s m = (BME280_SUCCESS, s2)) :
    ∃ b, s2.log = s.log ++
      [Txn.memRead BME280_ADDR CTRL_MEAS 1, Txn.memWrite BME280_ADDR CTRL_MEAS [b]] ∧
      b &&& 0x03 = m := by
  rw [BME280_set_mode_eq s m hm] at h
  by_cases hok : (s.device s.log (Txn.memRead BME280_ADDR CTRL_MEAS 1)).ok = true
  · rw [if_pos hok, BME280_write_register_eq] at h
    have h2 := congrArg (fun p => p.2.log) h
    simp only at h2
    obtain ⟨e1, _, e3⟩ := climate_mode_byte_all m (by omega)
      (byteAt (s.device s.log (Txn.memRead BME280_ADDR CTRL_MEAS 1)).data 0) (byteAt_lt _ _)
    rw [← h2]
    refine ⟨_, List.append_assoc _ _ _, ?_⟩
    rw [e1]
    exact e3
  · rw [if_neg hok] at h
    have h1 : BME280_I2C_ERROR = BME280_SUCCESS := congrArg (fun p => p.1) h
    exact absurd h1 (by decide)

set_option maxRecDepth 100000 in
theorem oversampling_bytes_all :
    ∀ r < 256, ((r &&& 0b11111000) ||| 0x01) % 256 &&& 0x07 = 0x01 ∧
      ((r &&& 0b00011111) ||| 0x20) % 256 &&& 0xE0 = 0x20 := by
  decide

theorem BME280_set_hum_os_log (s : Driver) :
    ∃ b, (BME280_set_hum_os s).2.log = s.log ++
      [Txn.memRead BME280_ADDR CTRL_HUM 1, Txn.memWrite BME280_ADDR CTRL_HUM [b],
       Txn.memRead BME280_ADDR CTRL_HUM 1] ∧ b &&& 0x07 = 0x01 := by
  rw [BME280_set_hum_os_eq]
  refine ⟨((byteAt (s.device s.log (Txn.memRead BME280_ADDR CTRL_HUM 1)).data 0 &&&
    0b11111000) ||| std_hum) % 256, ?_, (oversampling_bytes_all _ (byteAt_lt _ _)).1⟩
  simp

theorem BME280_set_temp_os_log (s : Driver) :
    ∃ b, (BME280_set_temp_os s).2.log = s.log ++
      [Txn.memRead BME280_ADDR CTRL_MEAS 1, Txn.memWrite BME280_ADDR CTRL_MEAS [b]] ∧
      b &&& 0xE0 = 0x20 := by
  rw [BME280_set_temp_os_eq, BME280_write_register_eq]
  exact ⟨_, List.append_assoc _ _ _, (oversampling_bytes_all _ (byteAt_lt _ _)).2⟩

/-- C26: in every run of `BME280_init` that returns `BME280_SUCCESS` the
transactions issued are, in this order: the identity read, the nine
calibration reads, the read and the write of the config register, the read
and the write of `0xF4` for mode 0, then the read, the single write and the
re-read of the humidity-control register `0xF2` (oversampling field 1), then
the read and the write of `0xF4` that sets the temperature oversampling (field
`001`), then the read and the write of `0xF4` for mode 3.  So the write to
`0xF2` comes before the temperature-oversample write, and two writes to `0xF4`
follow it. -/
theorem C26_init_humidity_write_before_ctrl_meas (s : Driver)
    (h : (BME280_init s).1 = BME280_SUCCESS) :
    ∃ c m0 hb tb m3, (BME280_init s).2.log = s.log ++ ([Txn.memRead 0xEE 0xD0 1] ++
      calibrationReads ++
      [Txn.memRead 0xEE 0xF5 1, Txn.memWrite 0xEE 0xF5 [c],
       Txn.memRead 0xEE 0xF4 1, Txn.memWrite 0xEE 0xF4 [m0],
       Txn.memRead 0xEE 0xF2 1, Txn.memWrite 0xEE 0xF2 [hb], Txn.memRead 0xEE 0xF2 1,
       Txn.memRead 0xEE 0xF4 1, Txn.memWrite 0xEE 0xF4 [tb],
       Txn.memRead 0xEE 0xF4 1, Txn.memWrite 0xEE 0xF4 [m3]]) ∧
      hb &&& 0x07 = 0x01 ∧ tb &&& 0xE0 = 0x20 ∧ m3 &&& 0x03 = 3 := by
  obtain ⟨s2, s3, s4, s5, s6, h2, h3, h4, h5, h6, h7, hinit⟩ := BME280_init_success_chain s h
  have l2 := BME280_read_calibration_success_log _ _ h2
  obtain ⟨c, l3⟩ := BME280_config_success_log _ _ h3
  obtain ⟨m0, l4, _⟩ := BME280_set_mode_success_log _ _ 0 (by decide) h4
  obtain ⟨hb, l5, b5⟩ := BME280_set_hum_os_log s4
  obtain ⟨tb, l6, b6⟩ := BME280_set_temp_os_log s5
  obtain ⟨m3, l7, b7⟩ := BME280_set_mode_success_log s6 (BME280_set_mode s6 3).2 3 (by decide)
    (Prod.ext h7 rfl)
  rw [h5] at l5
  rw [h6] at l6
  refine ⟨c, m0, hb, tb, m3, ?_, b5, b6, b7⟩
  rw [hinit, l7, l6, l5, l4, l3, l2]
  simp [BME280_ADDR, ID_REG, CONFIG_REG, CTRL_MEAS, CTRL_HUM]

/-- Witness for C26: bring-up on the register file whose registers all hold
`0xFF` except the identity register (`0x60`). -/
theorem C26_init_humidity_write_before_ctrl_meas_witness :
    ∃ c m0 hb tb m3, (BME280_init registerFileDriver).2.log = registerFileDriver.log ++
      ([Txn.memRead 0xEE 0xD0 1] ++ calibrationReads ++
      [Txn.memRead 0xEE 0xF5 1, Txn.memWrite 0xEE 0xF5 [c],
       Txn.memRead 0xEE 0xF4 1, Txn.memWrite 0xEE 0xF4 [m0],
       Txn.memRead 0xEE 0xF2 1, Txn.memWrite 0xEE 0xF2 [hb], Txn.memRead 0xEE 0xF2 1,
       Txn.memRead 0xEE 0xF4 1, Txn.memWrite 0xEE 0xF4 [tb],
       Txn.memRead 0xEE 0xF4 1, Txn.memWrite 0xEE 0xF4 [m3]]) ∧
      hb &&& 0x07 = 0x01 ∧ tb &&& 0xE0 = 0x20 ∧ m3 &&& 0x03 = 3 :=
  C26_init_humidity_write_before_ctrl_meas registerFileDriver (by decide)

/-! ## Order of the bus operations in a polling iteration -/

theorem CCS811_data_available_log (s : Driver) :
    (CCS811_data_available s).2.log = s.log ++ [Txn.memRead CCS811_ADDR STATUS_REG 1] := by
  unfold CCS811_data_available
  rw [CCS811_read_register_eq]
  dsimp only
  split_ifs <;> rfl

theorem CCS811_read_alg_res_log (s : Driver) :
    (CCS811_read_alg_res s).2.log = s.log ++ [Txn.memRead CCS811_ADDR ALG_RES_DATA 4] := by
  unfold CCS811_read_alg_res
  rw [CCS811_read_register_eq]
  dsimp only
  split_ifs <;> rfl

theorem BME280_read_temp_log (s : Driver) :
    (BME280_read_temp s).2.log = s.log ++ [Txn.memRead BME280_ADDR 0xF7 8] := by
  rw [BME280_read_temp_frame]

theorem BME280_read_hum_log (s : Driver) :
    (BME280_read_hum s).2.log = s.log ++ [Txn.memRead BME280_ADDR 0xF7 8] := by
  rw [BME280_read_hum_eq]

theorem BME280_read_hum_range (s : Driver) :
    0 ≤ (BME280_read_hum s).1 ∧ (BME280_read_hum s).1 ≤ 100 := by
  simp only [BME280_read_hum, BME280_read_register8_eq]
  generalize hv : asr (BME280_hum_var1 _ _) 12 = v
  have hb : 0 ≤ v ∧ v ≤ 102400 := by
    rw [← hv]
    obtain ⟨h0, h1⟩ := BME280_hum_var1_bounds _ _
    exact asr12_bounds _ h0 h1
  have c0 : (0 : ℚ) ≤ (v : ℚ) := by exact_mod_cast hb.1
  have c1 : (v : ℚ) ≤ 102400 := by exact_mod_cast hb.2
  constructor
  · positivity
  · rw [div_le_iff₀ (by norm_num)]
    linarith

theorem iteration_reads_log (s : Driver) :
    (BME280_read_hum
      (BME280_read_temp (CCS811_read_alg_res (CCS811_data_available s).2).2).2).2.log =
      s.log ++ [Txn.memRead 0xB6 0x00 1, Txn.memRead 0xB6 0x02 4, Txn.memRead 0xEE 0xF7 8,
        Txn.memRead 0xEE 0xF7 8] := by
  rw [BME280_read_hum_log, BME280_read_temp_log, CCS811_read_alg_res_log,
    CCS811_data_available_log]
  simp [CCS811_ADDR, STATUS_REG, ALG_RES_DATA, BME280_ADDR]

theorem office_environment_monitor_iteration_new_data (s : Driver)
    (hnew : (CCS811_data_available s).1 = CCS811_NEW_DATA) :
    office_environment_monitor_iteration s =
      (CCS811_set_temp_hum
        (BME280_read_hum
          (BME280_read_temp (CCS811_read_alg_res (CCS811_data_available s).2).2).2).2
        (iterationTemperature s) (iterationHumidity s)).map (fun p => p.2) :=
  if_pos hnew
theorem CCS811_set_temp_hum_rejected_log (s : Driver) (t h : ℚ)
    (hc : t < -25 ∨ t > 50 ∨ h < 0 ∨ h > 100) :
    (CCS811_set_temp_hum s t h).map (fun p => p.2.log) = some s.log := by
  simp only [CCS811_set_temp_hum, if_pos hc, Option.map_some']

theorem CCS811_set_temp_hum_written_log (s : Driver) (t h : ℚ)
    (ht0 : 0 ≤ t) (ht : t ≤ 50) (hh0 : 0 ≤ h) (hh : h ≤ 100) :
    (CCS811_set_temp_hum s t h).map (fun p => p.2.log) =
      some (s.log ++ [Txn.memWrite 0xB6 0x05
        [(⌊h * 1024⌋.toNat + 250) / 500, 0x00, (⌊t * 1000⌋.toNat + 25250) / 500, 0x00]]) := by
  have hH : floatToU32 (h * 1024) = some ⌊h * 1024⌋.toNat :=
    floatToU32_of_nonneg _ (by positivity) (by linarith)
  have hT : floatToU32 (t * 1000) = some ⌊t * 1000⌋.toNat :=
    floatToU32_of_nonneg _ (by positivity) (by linarith)
  have bH : ⌊h * 1024⌋.toNat ≤ 102400 := floor_toNat_le _ 102400 (by push_cast; linarith)
  have bT : ⌊t * 1000⌋.toNat ≤ 50000 := floor_toNat_le _ 50000 (by push_cast; linarith)
  have hrange : ¬ (t < -25 ∨ t > 50 ∨ h < 0 ∨ h > 100) := by
    intro hc
    rcases hc with hc | hc | hc | hc <;> linarith
  obtain ⟨e1, _⟩ := humidity_byte_exact _ bH
  obtain ⟨e2, _⟩ := temperature_byte_exact _ bT
  simp only [CCS811_set_temp_hum, if_neg hrange, hH, hT, CCS811_write_register_eq, e1, e2,
    CCS811_ADDR, ENV_DATA]
  split_ifs <;> rfl

theorem CCS811_set_temp_hum_log_cases (s : Driver) (t h : ℚ) (r : ENV_SENSOR_STATUS × Driver)
    (hr : CCS811_set_temp_hum s t h = some r) :
    r.2.log = s.log ∨ ∃ d, r.2.log = s.log ++ [Txn.memWrite 0xB6 0x05 d] := by
  by_cases hc : t < -25 ∨ t > 50 ∨ h < 0 ∨ h > 100
  · left
    simp only [CCS811_set_temp_hum, if_pos hc, Option.some.injEq] at hr
    rw [← hr]
  · right
    simp only [CCS811_set_temp_hum, if_neg hc] at hr
    cases hH : floatToU32 (h * 1024) with
    | none => simp [hH] at hr
    | some hum_t =>
      cases hT : floatToU32 (t * 1000) with
      | none => simp [hH, hT] at hr
      | some temp_t =>
        simp only [hH, hT, CCS811_write_register_eq] at hr
        refine ⟨[(hum_t + 250) % 4294967296 / 500 % 256, 0x00,
            (temp_t + 25250) % 4294967296 / 500 % 256, 0x00], ?_⟩
        split_ifs at hr <;> simp only [Option.some.injEq] at hr <;> rw [← hr] <;> rfl

theorem iteration_written_log (s : Driver)
    (hnew : (CCS811_data_available s).1 = CCS811_NEW_DATA)
    (ht0 : 0 ≤ iterationTemperature s) (ht : iterationTemperature s ≤ 50) :
    (office_environment_monitor_iteration s).map (fun d => d.log) =
      some (s.log ++ [Txn.memRead 0xB6 0x00 1, Txn.memRead 0xB6 0x02 4,
        Txn.memRead 0xEE 0xF7 8, Txn.memRead 0xEE 0xF7 8,
        Txn.memWrite 0xB6 0x05
          [(⌊iterationHumidity s * 1024⌋.toNat + 250) / 500, 0x00,
           (⌊iterationTemperature s * 1000⌋.toNat + 25250) / 500, 0x00]]) := by
  obtain ⟨hh0, hh⟩ := BME280_read_hum_range
    (BME280_read_temp (CCS811_read_alg_res (CCS811_data_available s).2).2).2
  rw [office_environment_monitor_iteration_new_data s hnew, Option.map_map]
  have hw := CCS811_set_temp_hum_written_log
    (BME280_read_hum
      (BME280_read_temp (CCS811_read_alg_res (CCS811_data_available s).2).2).2).2
    (iterationTemperature s) (iterationHumidity s) ht0 ht hh0 hh
  rw [iteration_reads_log] at hw
  rw [List.append_assoc] at hw
  exact hw

theorem iteration_rejected_log (s : Driver)
    (hnew : (CCS811_data_available s).1 = CCS811_NEW_DATA)
    (ht : iterationTemperature s < -25 ∨ 50 < iterationTemperature s) :
    (office_environment_monitor_iteration s).map (fun d => d.log) =
      some (s.log ++ [Txn.memRead 0xB6 0x00 1, Txn.memRead 0xB6 0x02 4,
        Txn.memRead 0xEE 0xF7 8, Txn.memRead 0xEE 0xF7 8]) := by
  rw [office_environment_monitor_iteration_new_data s hnew, Option.map_map]
  have hw := CCS811_set_temp_hum_rejected_log
    (BME280_read_hum
      (BME280_read_temp (CCS811_read_alg_res (CCS811_data_available s).2).2).2).2
    (iterationTemperature s) (iterationHumidity s)
    (by rcases ht with h | h
        · exact Or.inl h
        · exact Or.inr (Or.inl h))
  rw [iteration_reads_log] at hw
  exact hw

theorem newData_temperature : iterationTemperature newDataDriver = 2508 / 100 := by
  delta iterationTemperature
  rw [BME280_read_temp_output]
  have e : asr (add32 (mul32 (BME280_read_temp
      (CCS811_read_alg_res (CCS811_data_available newDataDriver).2).2).2.t_fine 5) 128) 8 =
      2508 := by decide
  rw [e]
  norm_num

theorem newData_humidity : iterationHumidity newDataDriver = 0 := by
  delta iterationHumidity
  rw [BME280_read_hum_eq]
  have e : asr (BME280_hum_var1 (adcHumidity (burstBytes (BME280_read_temp
      (CCS811_read_alg_res (CCS811_data_available newDataDriver).2).2).2))
      (BME280_read_temp
        (CCS811_read_alg_res (CCS811_data_available newDataDriver).2).2).2) 12 = 0 := by
    decide
  show ((asr _ 12 : Int) : ℚ) / 1024 = 0
  rw [e]
  norm_num


/-- C27 (as stated, refuted): on a device that reports new data, one polling
iteration issues the status read, then the read of the result registers
`0x02`, then the two burst reads of the climate sensor, and last the
compensation write to `0x05`: the result read comes before the temperature
read and before the compensation write, not after them. -/
theorem C27_result_read_precedes_compensation :
    (CCS811_data_available newDataDriver).1 = CCS811_NEW_DATA ∧
    (office_environment_monitor_iteration newDataDriver).map (fun d => d.log) =
      some [Txn.memRead 0xB6 0x00 1, Txn.memRead 0xB6 0x02 4, Txn.memRead 0xEE 0xF7 8,
        Txn.memRead 0xEE 0xF7 8, Txn.memWrite 0xB6 0x05 [0, 0x00, 100, 0x00]] ∧
    List.indexOf (Txn.memRead 0xB6 0x02 4)
        [Txn.memRead 0xB6 0x00 1, Txn.memRead 0xB6 0x02 4, Txn.memRead 0xEE 0xF7 8,
          Txn.memRead 0xEE 0xF7 8, Txn.memWrite 0xB6 0x05 [0, 0x00, 100, 0x00]] <
      List.indexOf (Txn.memWrite 0xB6 0x05 [0, 0x00, 100, 0x00])
        [Txn.memRead 0xB6 0x00 1, Txn.memRead 0xB6 0x02 4, Txn.memRead 0xEE 0xF7 8,
          Txn.memRead 0xEE 0xF7 8, Txn.memWrite 0xB6 0x05 [0, 0x00, 100, 0x00]] := by
  have hnew : (CCS811_data_available newDataDriver).1 = CCS811_NEW_DATA := by decide
  have hT := newData_temperature
  have hH := newData_humidity
  have hlog := iteration_written_log newDataDriver hnew (by rw [hT]; norm_num)
    (by rw [hT]; norm_num)
  rw [hT, hH] at hlog
  have f1 : (⌊(0 : ℚ) * 1024⌋.toNat + 250) / 500 = 0 := by norm_num
  have f2 : (⌊(2508 / 100 : ℚ) * 1000⌋.toNat + 25250) / 500 = 100 := by
    have : (2508 / 100 : ℚ) * 1000 = ((25080 : ℤ) : ℚ) := by norm_num
    rw [this, Int.floor_intCast]
    rfl
  rw [f1, f2] at hlog
  exact ⟨hnew, hlog, by decide⟩

/-- C27 (amended): in every polling iteration in which
`CCS811_data_available` reports new data, the sensor-bus transactions are, in
this order: the status read, the read of the result registers `0x02`, the
burst read of `BME280_read_temp`, the burst read of `BME280_read_hum`, and
then at most one write, the compensation write to `0x05`.  That write is
issued, with the truncated payload, when the temperature read lies in
[0, 50]; it is not issued when the temperature is below -25 or above 50. -/
theorem C27_iteration_reads_result_first (s : Driver)
    (hnew : (CCS811_data_available s).1 = CCS811_NEW_DATA) :
    (∀ s2, office_environment_monitor_iteration s = some s2 →
      s2.log = s.log ++ [Txn.memRead 0xB6 0x00 1, Txn.memRead 0xB6 0x02 4,
        Txn.memRead 0xEE 0xF7 8, Txn.memRead 0xEE 0xF7 8] ∨
      ∃ d, s2.log = s.log ++ [Txn.memRead 0xB6 0x00 1, Txn.memRead 0xB6 0x02 4,
        Txn.memRead 0xEE 0xF7 8, Txn.memRead 0xEE 0xF7 8, Txn.memWrite 0xB6 0x05 d]) ∧
    (0 ≤ iterationTemperature s → iterationTemperature s ≤ 50 →
      (office_environment_monitor_iteration s).map (fun d => d.log) =
        some (s.log ++ [Txn.memRead 0xB6 0x00 1, Txn.memRead 0xB6 0x02 4,
          Txn.memRead 0xEE 0xF7 8, Txn.memRead 0xEE 0xF7 8,
          Txn.memWrite 0xB6 0x05
            [(⌊iterationHumidity s * 1024⌋.toNat + 250) / 500, 0x00,
             (⌊iterationTemperature s * 1000⌋.toNat + 25250) / 500, 0x00]])) ∧
    (iterationTemperature s < -25 ∨ 50 < iterationTemperature s →
      (office_environment_monitor_iteration s).map (fun d => d.log) =
        some (s.log ++ [Txn.memRead 0xB6 0x00 1, Txn.memRead 0xB6 0x02 4,
          Txn.memRead 0xEE 0xF7 8, Txn.memRead 0xEE 0xF7 8])) := by
  refine ⟨?_, iteration_written_log s hnew, iteration_rejected_log s hnew⟩
  intro s2 h2
  rw [office_environment_monitor_iteration_new_data s hnew] at h2
  cases hr : CCS811_set_temp_hum
      (BME280_read_hum
        (BME280_read_temp (CCS811_read_alg_res (CCS811_data_available s).2).2).2).2
      (iterationTemperature s) (iterationHumidity s) with
  | none =>
    rw [hr] at h2
    exact absurd h2 (by simp)
  | some r =>
    rw [hr] at h2
    simp only [Option.map_some', Option.some.injEq] at h2
    have hc := CCS811_set_temp_hum_log_cases _ _ _ r hr
    rw [iteration_reads_log, h2] at hc
    rcases hc with hc | ⟨d, hd⟩
    · exact Or.inl hc
    · exact Or.inr ⟨d, by rw [hd, List.append_assoc]; rfl⟩

/-- Witness for C27 (amended): the device that reports new data, with a
temperature of 25.08 degrees, which lies in [0, 50]: the compensation write
is the fifth and last transaction of the iteration. -/
theorem C27_iteration_reads_result_first_witness :
    (office_environment_monitor_iteration newDataDriver).map (fun d => d.log) =
      some (newDataDriver.log ++ [Txn.memRead 0xB6 0x00 1, Txn.memRead 0xB6 0x02 4,
        Txn.memRead 0xEE 0xF7 8, Txn.memRead 0xEE 0xF7 8,
        Txn.memWrite 0xB6 0x05
          [(⌊iterationHumidity newDataDriver * 1024⌋.toNat + 250) / 500, 0x00,
           (⌊iterationTemperature newDataDriver * 1000⌋.toNat + 25250) / 500, 0x00]]) :=
  (C27_iteration_reads_result_first newDataDriver (by decide)).2.1
    (by rw [newData_temperature]; norm_num) (by rw [newData_temperature]; norm_num)

/-! ## Application-level bring-up (`ccs811_start`) against `CCS811_init` -/

/-- C28: for every device behaviour, every driver state and every allowance of
identity probes, `ccs811_start` and `CCS811_init` leave the driver in the same
state, in particular with the same log of sensor-bus transactions, and
`ccs811_start` returns `CCS811_START_SUCCESS` when `CCS811_init` returns
`CCS811_SUCCESS` and `CCS811_START_ERROR` otherwise; the one does not return
exactly when the other does not. -/
theorem C28_ccs811_start_matches_init (fuel : Nat) (s : Driver) :
    (ccs811_start fuel s).map (fun r => (r.1, r.2.2)) =
      (CCS811_init fuel s).map (fun p =>
        (if p.1 = CCS811_SUCCESS then CCS811_START_SUCCESS else CCS811_START_ERROR, p.2)) := by
  induction fuel generalizing s with
  | zero => rfl
  | succ n ih =>
    unfold ccs811_start CCS811_init
    dsimp only
    split_ifs <;> first | exact ih _ | simp_all

end CCS811_BME280
